import Mathlib

/-!
Verification development for the dual-call AI inference orchestration engine.

The definitions below are a shallow embedding of the TypeScript sources:
  * `rebuild/production/backend/src/services/aiService.ts` (token estimator,
    history compression, lorebook engine, retry executor, response extractor);
  * `双API临时区/backend/{narrativeApi,parserApi,routes,defaultPrompts}.ts`
    (dual-call orchestrator, narrative/parser calls, fixed prompts).

External effects (the HTTP transport, the database store, `JSON.parse`) are
modelled explicitly: transport outcomes and store outcomes are passed in as
values, and `JSON.parse` is embedded as a total fuel-based parser over a
`Json` value type.  JS falsiness (`undefined`/`null`/`false`/`0`/`""`) is
modelled wherever the source relies on it.
-/

/-! ## String helpers (JS `String.prototype.includes`, `trim`, `substring`) -/

/-- Is the second list a prefix of the first?  (Character-by-character.) -/
def startsWithL : List Char → List Char → Bool
  | _, [] => true
  | [], _ :: _ => false
  | a :: as, b :: bs => a = b && startsWithL as bs

/-- Does `pat` occur as a contiguous run somewhere in `s`?  This is the
substring relation used by JS `String.prototype.includes`. -/
def occursL : List Char → List Char → Bool
  | [], pat => startsWithL [] pat
  | c :: rest, pat => startsWithL (c :: rest) pat || occursL rest pat

/-- JS `s.includes(pat)`. -/
def strIncludes (s pat : String) : Bool :=
  occursL s.data pat.data

/-- Whitespace as matched by the JS `\s` class and by `trim` (ASCII part plus
no-break space; the exotic Unicode spaces are not needed by any input the
engine manipulates). -/
def isJsWs (c : Char) : Bool :=
  c = ' ' || c = '\t' || c = '\n' || c = '\r' || c = '\x0b' || c = '\x0c' || c = '\xa0'

/-- JS `s.trim()`. -/
def strTrim (s : String) : String :=
  ⟨((s.data.dropWhile isJsWs).reverse.dropWhile isJsWs).reverse⟩

/-- JS `s.substring(0, n)` (code-point approximation of the UTF-16 slice;
all strings the engine slices are BMP-only). -/
def jsSubstringTo (s : String) (n : Nat) : String :=
  ⟨s.data.take n⟩

/-! ## Token estimator (`AIService.estimateTokenCount`) -/

/-- Characters in the CJK range `[一-龥]` counted by the estimator. -/
def isChineseChar (c : Char) : Bool :=
  0x4e00 ≤ c.toNat && c.toNat ≤ 0x9fa5

/-- ASCII letters, the `[a-zA-Z]` class. -/
def isAsciiLetter (c : Char) : Bool :=
  ('a' ≤ c && c ≤ 'z') || ('A' ≤ c && c ≤ 'Z')

/-- ASCII digits, the `\d` class (no `u` flag, so ASCII only). -/
def isAsciiDigit (c : Char) : Bool :=
  '0' ≤ c && c ≤ '9'

/-- Number of maximal runs of characters satisfying `p` — the number of
matches of the regex `p+`.  The flag records whether the previous character
was inside a run. -/
def countRuns (p : Char → Bool) : List Char → Bool → Nat
  | [], _ => 0
  | c :: cs, inRun =>
    if p c then (if inRun then 0 else 1) + countRuns p cs true
    else countRuns p cs false

/-- `AIService.estimateTokenCount`: `Math.ceil(chineseChars / 1.5 +
englishWords + numbers)`.  Over ℕ, `⌈c / 1.5⌉ = ⌈2c / 3⌉ = (2c + 2) / 3`,
and the word/number counts are integers, so the ceiling distributes. -/
def estimateTokenCount (text : String) : Nat :=
  if text = "" then 0
  else
    let chineseChars := (text.data.filter isChineseChar).length
    let englishWords := countRuns isAsciiLetter text.data false
    let numbers := countRuns isAsciiDigit text.data false
    (2 * chineseChars + 2) / 3 + englishWords + numbers

/-! ## JSON values and `JSON.parse`

The runtime values produced by `JSON.parse` are embedded as `Json`.
Numbers are modelled as exact rationals (the engine never relies on
floating-point rounding of parsed numbers). -/

inductive Json where
  | null
  | bool (b : Bool)
  | num (q : Rat)
  | str (s : String)
  | arr (elems : List Json)
  | obj (fields : List (String × Json))
deriving Repr

/-- JS truthiness of a JSON-parsed value: `null`, `false`, `0` and `""` are
falsy; every array and object is truthy. -/
def jsTruthy : Json → Bool
  | .null => false
  | .bool b => b
  | .num q => q ≠ 0
  | .str s => s ≠ ""
  | .arr _ => true
  | .obj _ => true

/-- Property lookup on a parsed object.  `JSON.parse` keeps the last
duplicate key, so the last binding wins.  Lookup on any non-object value
yields `none` (JS `undefined`; property access on primitives returns
`undefined` for the properties the engine reads). -/
def jget : Json → String → Option Json
  | .obj fields, k => (fields.filter (fun p => p.1 = k)).getLast?.map (·.2)
  | _, _ => none

/-- Element `0`, as read by `choices?.[0]`. -/
def jget0 : Json → Option Json
  | .arr (x :: _) => some x
  | _ => none

def hexVal (c : Char) : Option Nat :=
  if '0' ≤ c && c ≤ '9' then some (c.toNat - 48)
  else if 'a' ≤ c && c ≤ 'f' then some (c.toNat - 87)
  else if 'A' ≤ c && c ≤ 'F' then some (c.toNat - 55)
  else none

/-- JSON whitespace (`space`, `\t`, `\n`, `\r`). -/
def isJsonWs (c : Char) : Bool :=
  c = ' ' || c = '\t' || c = '\n' || c = '\r'

def skipJsonWs (cs : List Char) : List Char :=
  cs.dropWhile isJsonWs

/-- String-body scanner for `JSON.parse`: consumes characters after the
opening quote up to the closing quote, decoding escapes. -/
def parseStrChars : List Char → List Char → Option (List Char × List Char)
  | _, [] => none
  | acc, '"' :: rest => some (acc.reverse, rest)
  | acc, '\\' :: '"' :: rest => parseStrChars ('"' :: acc) rest
  | acc, '\\' :: '\\' :: rest => parseStrChars ('\\' :: acc) rest
  | acc, '\\' :: '/' :: rest => parseStrChars ('/' :: acc) rest
  | acc, '\\' :: 'b' :: rest => parseStrChars ('\x08' :: acc) rest
  | acc, '\\' :: 'f' :: rest => parseStrChars ('\x0c' :: acc) rest
  | acc, '\\' :: 'n' :: rest => parseStrChars ('\n' :: acc) rest
  | acc, '\\' :: 'r' :: rest => parseStrChars ('\r' :: acc) rest
  | acc, '\\' :: 't' :: rest => parseStrChars ('\t' :: acc) rest
  | acc, '\\' :: 'u' :: h1 :: h2 :: h3 :: h4 :: rest =>
    match hexVal h1, hexVal h2, hexVal h3, hexVal h4 with
    | some a, some b, some c, some d =>
      parseStrChars (Char.ofNat (((a * 16 + b) * 16 + c) * 16 + d) :: acc) rest
    | _, _, _, _ => none
  | _, '\\' :: _ => none
  | acc, c :: rest =>
    if c.toNat < 0x20 then none else parseStrChars (c :: acc) rest

def digitsToNat (ds : List Char) : Nat :=
  ds.foldl (fun a c => a * 10 + (c.toNat - 48)) 0

/-- Number grammar of JSON: `-? int frac? exp?`, evaluated exactly. -/
def parseJsonNumber (cs : List Char) : Option (Rat × List Char) :=
  let (neg, cs1) := match cs with
    | '-' :: r => (true, r)
    | _ => (false, cs)
  let ds := cs1.takeWhile isAsciiDigit
  let cs2 := cs1.dropWhile isAsciiDigit
  if ds.isEmpty then none
  else if 1 < ds.length && ds.headD '0' = '0' then none
  else
    let fracStep : Option (List Char × List Char) := match cs2 with
      | '.' :: r =>
        let fds := r.takeWhile isAsciiDigit
        if fds.isEmpty then none else some (fds, r.dropWhile isAsciiDigit)
      | _ => some ([], cs2)
    match fracStep with
    | none => none
    | some (fds, cs3) =>
      let expStep : Option (Bool × List Char × List Char) := match cs3 with
        | 'e' :: r | 'E' :: r =>
          let (eneg, r1) := match r with
            | '-' :: r2 => (true, r2)
            | '+' :: r2 => (false, r2)
            | _ => (false, r)
          let eds := r1.takeWhile isAsciiDigit
          if eds.isEmpty then none else some (eneg, eds, r1.dropWhile isAsciiDigit)
        | _ => some (false, [], cs3)
      match expStep with
      | none => none
      | some (eneg, eds, cs4) =>
        let mantissa : Rat :=
          (digitsToNat ds : Rat) + (digitsToNat fds : Rat) / ((10 : Rat) ^ fds.length)
        let scaled : Rat :=
          if eneg then mantissa / ((10 : Rat) ^ digitsToNat eds)
          else mantissa * ((10 : Rat) ^ digitsToNat eds)
        some ((if neg then -scaled else scaled), cs4)

/-- Parsing task: a value, the tail of an array, or the tail of an object.
Folding the three mutually recursive parsers into one fuel-indexed function
keeps the recursion structural. -/
inductive PTask where
  | val
  | arrTail (acc : List Json)
  | objTail (acc : List (String × Json))

def parseCore : Nat → PTask → List Char → Option (Json × List Char)
  | 0, _, _ => none
  | fuel + 1, .val, cs =>
    match skipJsonWs cs with
    | 'n' :: 'u' :: 'l' :: 'l' :: rest => some (.null, rest)
    | 't' :: 'r' :: 'u' :: 'e' :: rest => some (.bool true, rest)
    | 'f' :: 'a' :: 'l' :: 's' :: 'e' :: rest => some (.bool false, rest)
    | '"' :: rest =>
      match parseStrChars [] rest with
      | some (body, rest2) => some (.str ⟨body⟩, rest2)
      | none => none
    | '[' :: rest =>
      (match skipJsonWs rest with
       | ']' :: rest2 => some (.arr [], rest2)
       | _ => parseCore fuel (.arrTail []) rest)
    | '\x7b' :: rest =>
      (match skipJsonWs rest with
       | '\x7d' :: rest2 => some (.obj [], rest2)
       | _ => parseCore fuel (.objTail []) rest)
    | rest =>
      (parseJsonNumber rest).map (fun p => (.num p.1, p.2))
  | fuel + 1, .arrTail acc, cs =>
    match parseCore fuel .val cs with
    | none => none
    | some (v, rest) =>
      match skipJsonWs rest with
      | ',' :: rest2 => parseCore fuel (.arrTail (v :: acc)) rest2
      | ']' :: rest2 => some (.arr (v :: acc).reverse, rest2)
      | _ => none
  | fuel + 1, .objTail acc, cs =>
    match skipJsonWs cs with
    | '"' :: rest =>
      (match parseStrChars [] rest with
       | none => none
       | some (key, rest2) =>
         match skipJsonWs rest2 with
         | ':' :: rest3 =>
           (match parseCore fuel .val rest3 with
            | none => none
            | some (v, rest4) =>
              match skipJsonWs rest4 with
              | ',' :: rest5 => parseCore fuel (.objTail ((⟨key⟩, v) :: acc)) rest5
              | '\x7d' :: rest5 => some (.obj ((⟨key⟩, v) :: acc).reverse, rest5)
              | _ => none)
         | _ => none)
    | _ => none

/-- `JSON.parse`: the whole input must be a single JSON value surrounded by
whitespace; otherwise (JS: a `SyntaxError` is thrown) the result is `none`. -/
def jsonParse (s : String) : Option Json :=
  match parseCore (2 * s.length + 4) .val s.data with
  | some (v, rest) => if skipJsonWs rest = [] then some v else none
  | none => none

/-! ## The three JSON-extraction patterns

`AIService.parseNarrativeResponse` and `parserApi.extractJsonFromResponse`
both try, in order, the regexes
  1. ``` ```json\s*([\s\S]*?)``` ``` (case-insensitive),
  2. ``` ```\s*([\s\S]*?)``` ```,
  3. `(\{[\s\S]*\})`.
The matchers below implement exactly these patterns' leftmost-match
semantics: the scan advances one character at a time looking for an opening
fence, skips the (greedy) whitespace run, and captures lazily up to the
next closing fence; for pattern 3 the capture is greedy, i.e. from the
first `{` to the last `}`. -/

def toLowerCh (c : Char) : Char :=
  if 'A' ≤ c && c ≤ 'Z' then Char.ofNat (c.toNat + 32) else c

def startsFence (cs : List Char) : Bool :=
  startsWithL cs ['`', '`', '`']

def startsJsonFence : List Char → Bool
  | a :: b :: c :: d :: e :: f :: g :: _ =>
    a = '`' && b = '`' && c = '`' &&
    toLowerCh d = 'j' && toLowerCh e = 's' && toLowerCh f = 'o' && toLowerCh g = 'n'
  | _ => false

/-- Split at the first closing fence: returns the characters before the
first occurrence of three backticks, and the characters after it. -/
def splitAtFence : List Char → Option (List Char × List Char)
  | [] => none
  | c :: rest =>
    if startsFence (c :: rest) then some ([], rest.drop 2)
    else
      match splitAtFence rest with
      | some (body, after) => some (c :: body, after)
      | none => none

/-- Generic fenced-block matcher: find the first position where `isOpen`
holds, drop the opener (`openLen` characters) and the whitespace run, and
capture up to the next closing fence; if no closing fence follows, the
regex engine backtracks to a later opener. -/
def matchFenceFrom (openLen : Nat) (isOpen : List Char → Bool) : List Char → Option String
  | [] => none
  | c :: rest =>
    if isOpen (c :: rest) then
      match splitAtFence (((c :: rest).drop openLen).dropWhile isJsWs) with
      | some (body, _) => some ⟨body⟩
      | none => matchFenceFrom openLen isOpen rest
    else matchFenceFrom openLen isOpen rest

def matchJsonFence (s : String) : Option String :=
  matchFenceFrom 7 startsJsonFence s.data

def matchAnyFence (s : String) : Option String :=
  matchFenceFrom 3 startsFence s.data

def firstIdxOf (c : Char) : List Char → Option Nat
  | [] => none
  | x :: rest => if x = c then some 0 else (firstIdxOf c rest).map (· + 1)

/-- Pattern 3, `(\{[\s\S]*\})`: from the first `{` to the last `}`. -/
def matchBraces (s : String) : Option String :=
  let cs := s.data
  match firstIdxOf '\x7b' cs, (firstIdxOf '\x7d' cs.reverse).map (fun k => cs.length - 1 - k) with
  | some i, some j => if i < j then some ⟨(cs.drop i).take (j - i + 1)⟩ else none
  | _, _ => none

/-- The candidates produced by the three patterns, in order; `none` when a
pattern has no match. -/
def patternCandidates (content : String) : List (Option String) :=
  [matchJsonFence content, matchAnyFence content, matchBraces content]

/-! ## JS value coercions used by the extractor -/

/-- JS `typeof v === 'object' && v` for a JSON-parsed value: objects and
arrays (never `null`, which is falsy). -/
def jsObjectLike : Json → Bool
  | .obj _ => true
  | .arr _ => true
  | _ => false

def optTruthy (o : Option Json) : Bool :=
  match o with
  | some v => jsTruthy v
  | none => false

/-- JS `a || b` on a possibly-absent field: the field's value when truthy,
otherwise the default. -/
def jsOrJ (o : Option Json) (dflt : Json) : Json :=
  match o with
  | some v => if jsTruthy v then v else dflt
  | none => dflt

/-- JS `String(v)` for the values the engine interpolates into template
strings.  Numbers print exactly for integers; non-integral rationals and
composite values use a placeholder rendering (no claim depends on them). -/
def jsDisplay : Json → String
  | .str s => s
  | .null => "null"
  | .bool true => "true"
  | .bool false => "false"
  | .num q => if q.den = 1 then toString q.num else toString q
  | .arr _ => "?array"
  | .obj _ => "[object Object]"

def jsDisplayOpt : Option Json → String
  | none => "undefined"
  | some v => jsDisplay v

/-- Depth-bounded `JSON.stringify`, used only for fallback narrative
strings built from unparseable provider payloads; no claim depends on its
exact output beyond the primitive cases. -/
def jsonStringifyB : Nat → Json → String
  | _, .null => "null"
  | _, .bool true => "true"
  | _, .bool false => "false"
  | _, .num q => if q.den = 1 then toString q.num else toString q
  | _, .str s => "\"" ++ s ++ "\""
  | 0, _ => ""
  | d + 1, .arr xs => "[" ++ String.intercalate "," (xs.map (jsonStringifyB d)) ++ "]"
  | d + 1, .obj fs =>
    "\x7b" ++ String.intercalate "," (fs.map (fun p => "\"" ++ p.1 ++ "\":" ++ jsonStringifyB d p.2)) ++ "\x7d"

def jsonStringify (v : Json) : String :=
  jsonStringifyB 64 v

/-! ## JS object literals with spreads

`parseNarrativeResponse` returns an object literal ending in `...parsed`,
so later entries override earlier ones.  Keys whose final value is
`undefined` are dropped: JS keeps them, but they are indistinguishable
from absent keys for every access the engine performs. -/

inductive JsEntry where
  | kv (k : String) (v : Option Json)
  | spread (v : Json)

/-- Own enumerable fields contributed by spreading a value: an object's
fields, an array's indexed elements, nothing for primitives. -/
def jsSpreadFields : Json → List (String × Json)
  | .obj fs => fs
  | .arr xs => xs.enum.map (fun p => (toString p.1, p.2))
  | _ => []

def upsert (fs : List (String × Json)) (k : String) (v : Json) : List (String × Json) :=
  if fs.any (fun p => p.1 = k) then fs.map (fun p => if p.1 = k then (k, v) else p)
  else fs ++ [(k, v)]

def jsObject (entries : List JsEntry) : Json :=
  .obj (entries.foldl (fun fs e =>
    match e with
    | .kv k (some v) => upsert fs k v
    | .kv _ none => fs
    | .spread v => (jsSpreadFields v).foldl (fun fs2 p => upsert fs2 p.1 p.2) fs) [])

/-! ## `AIService.parseNarrativeResponse` and `AIService.parseResponse` -/

/-- The pattern loop of `parseNarrativeResponse`: the first candidate that
is a non-empty match (`match && match[1]`) and whose trimmed text
`JSON.parse`s to a truthy `typeof 'object'` value. -/
def firstParsedObjLike : List (Option String) → Option Json
  | [] => none
  | none :: rest => firstParsedObjLike rest
  | some s :: rest =>
    if s = "" then firstParsedObjLike rest
    else
      match jsonParse (strTrim s) with
      | none => firstParsedObjLike rest
      | some v => if jsObjectLike v then some v else firstParsedObjLike rest

/-- `mapEntityPanelsToOutcomes`: legacy outcome records derived from
`perEntityPanel`, or `[]` when the field is not an array. -/
def mapEntityPanelsToOutcomes : Option Json → List Json
  | some (.arr panels) =>
    panels.enum.map (fun p =>
      Json.obj [
        ("playerIndex", .num p.1),
        ("outcome", .str (
          if optTruthy (jget p.2 "broken") then
            jsDisplayOpt (jget p.2 "name") ++ " 已破产: " ++
              jsDisplay (jsOrJ (jget p.2 "bankruptReason") (.str "现金流断裂"))
          else
            jsDisplayOpt (jget p.2 "name") ++ " 当前现金: " ++ jsDisplayOpt (jget p.2 "cash"))),
        ("resources", jsObject [
          .kv "cash" (jget p.2 "cash"),
          .spread ((jget p.2 "attributes").getD .null),
          .kv "passiveIncome" (jget p.2 "passiveIncome"),
          .kv "passiveExpense" (jget p.2 "passiveExpense")])])
  | _ => []

/-- `mapTurnEvents`: legacy event records, or `[]` when not an array. -/
def mapTurnEvents : Option Json → List Json
  | some (.arr events) =>
    events.map (fun event =>
      Json.obj [
        ("type", jsOrJ (jget event "type") (.str "neutral")),
        ("description", jsOrJ (jget event "description") (jsOrJ (jget event "keyword") (.str "")))])
  | _ => []

/-- `AIService.parseNarrativeResponse`: try the three patterns; on the
first block that parses to a (truthy) object, return the mapped result
with the parsed fields spread on top; otherwise return the raw text with
empty outcome/event arrays.  The function is total — the JS original never
throws. -/
def parseNarrativeResponse (content : String) : Json :=
  match firstParsedObjLike (patternCandidates content) with
  | some parsed =>
    jsObject [
      .kv "narrative" (some (jsOrJ (jget parsed "narrative") (.str content))),
      .kv "outcomes" (some (.arr (mapEntityPanelsToOutcomes (jget parsed "perEntityPanel")))),
      .kv "events" (some (.arr (mapTurnEvents (jget parsed "events")))),
      .kv "nextRoundHints" (jget parsed "nextRoundHints"),
      .spread parsed]
  | none =>
    Json.obj [("narrative", .str content), ("outcomes", .arr []), ("events", .arr [])]

def isOpenAIFamily (provider : String) : Bool :=
  provider = "openai" || provider = "deepseek" || provider = "default"

/-- `AIService.parseResponse` on a payload that is a non-null object. -/
def parseResponseObj (data : Json) (provider : String) : Json :=
  let choicesContent : Option String :=
    if isOpenAIFamily provider then
      match jget data "choices" with
      | some (.arr (choice :: _)) =>
        (match jget choice "message" with
         | some msg =>
           if jsTruthy msg && jsObjectLike msg then
             match jget msg "content" with
             | some (.str s) => if s ≠ "" then some s else none
             | _ => none
           else none
         | none => none)
      | _ => none
    else none
  match choicesContent with
  | some s => parseNarrativeResponse s
  | none =>
    if isOpenAIFamily provider && optTruthy (jget data "result") then
      (jget data "result").getD .null
    else if isOpenAIFamily provider &&
        (optTruthy (jget data "narrative") || optTruthy (jget data "outcomes")) then
      data
    else
      match jget data "content" with
      | some (.str s) =>
        if s ≠ "" then parseNarrativeResponse s
        else Json.obj [("narrative", .str (jsonStringify data))]
      | _ => Json.obj [("narrative", .str (jsonStringify data))]

/-- `AIService.parseResponse`: non-object (or null) payloads become a bare
narrative; objects go through the provider-aware unwrap. -/
def parseResponse (data : Json) (provider : String) : Json :=
  match data with
  | .arr _ => parseResponseObj data provider
  | .obj _ => parseResponseObj data provider
  | .str s => Json.obj [("narrative", .str s)]
  | other => Json.obj [("narrative", .str (jsonStringify other))]

/-! ## Conversation messages and the History Manager -/

inductive Role where
  | system
  | user
  | assistant
deriving DecidableEq, Repr

structure ConversationMessage where
  role : Role
  content : String
deriving DecidableEq, Repr

structure HistoryConfig where
  enabled : Bool
  maxRounds : Nat
  maxTokens : Nat
  summarizeOldRounds : Bool
deriving DecidableEq, Repr

/-- The process-wide default (`AIService.defaultHistoryConfig`). -/
def defaultHistoryConfig : HistoryConfig :=
  { enabled := true, maxRounds := 10, maxTokens := 16000, summarizeOldRounds := true }

/-- Total estimated tokens of a message list
(`messages.reduce((sum, m) => sum + estimateTokenCount(m.content), 0)`). -/
def listTokens (messages : List ConversationMessage) : Nat :=
  messages.foldl (fun sum m => sum + estimateTokenCount m.content) 0

/-- Per-round grouping of `compressHistory`: a round accumulates messages
until an `assistant` message closes it; a trailing group without an
assistant message is kept as-is. -/
def groupRounds : List ConversationMessage → List ConversationMessage → List (List ConversationMessage)
  | [], acc => if acc.isEmpty then [] else [acc]
  | m :: ms, acc =>
    if m.role = .assistant then (acc ++ [m]) :: groupRounds ms []
    else groupRounds ms (acc ++ [m])

/-- Round-number extraction of `summarizeRound`: the regex
`第\s*(\d+)\s*回合`, leftmost match, returning the captured digits. -/
def matchRoundAt : List Char → Option String
  | '第' :: rest =>
    let r1 := rest.dropWhile isJsWs
    let ds := r1.takeWhile isAsciiDigit
    if ds.isEmpty then none
    else
      let r2 := (r1.dropWhile isAsciiDigit).dropWhile isJsWs
      if startsWithL r2 ['回', '合'] then some ⟨ds⟩ else none
  | _ => none

def matchRoundNum : List Char → Option String
  | [] => none
  | c :: rest =>
    match matchRoundAt (c :: rest) with
    | some s => some s
    | none => matchRoundNum rest

/-- `AIService.summarizeRound`: one synopsis line for one round's messages.
The round number comes from the first `user` message; the key events come
from the ```json block of the first `assistant` message — up to three
event keywords, else the first 100 characters of the parsed narrative;
if `JSON.parse` (or a property access on a non-string narrative) throws,
the fallback is the first 100 characters of the raw assistant content. -/
def summarizeRound (messages : List ConversationMessage) : String :=
  let userContent := ((messages.find? (fun m => m.role = .user)).map (·.content)).getD ""
  let assistantContent := ((messages.find? (fun m => m.role = .assistant)).map (·.content)).getD ""
  let roundNum := (matchRoundNum userContent.data).getD "?"
  let keyEvents :=
    match matchJsonFence assistantContent with
    | none => ""
    | some blockText =>
      match jsonParse blockText with
      | none => jsSubstringTo assistantContent 100 ++ "..."
      | some parsed =>
        let ke1 :=
          match jget parsed "events" with
          | some (.arr evs) =>
            String.intercalate "、" ((evs.take 3).map (fun e =>
              jsDisplayOpt (match jget e "keyword" with
                | some k => if jsTruthy k then some k else jget e "description"
                | none => jget e "description")))
          | _ => ""
        match jget parsed "narrative" with
        | some nv =>
          if jsTruthy nv then
            (if ke1 ≠ "" then ke1
             else match nv with
               | .str ns => jsSubstringTo ns 100 ++ "..."
               | _ => jsSubstringTo assistantContent 100 ++ "...")
          else ke1
        | none => ke1
  "第" ++ roundNum ++ "回合: " ++ keyEvents

/-- The backward scan of `compressHistory` over the rounds, newest first.
`cur` accumulates the kept rounds' tokens.  A round is kept when
`cur + roundTokens ≤ maxTokens * 0.7` (stated exactly over ℕ as
`10 * (cur + roundTokens) ≤ 7 * maxTokens`); otherwise it is replaced by a
synopsis.  The scan continues past a round that does not fit.  Returns the
kept messages (oldest first) and the synopses (oldest first). -/
def compressGo (maxTokens : Nat) : List (List ConversationMessage) → Nat →
    List ConversationMessage × List String
  | [], _ => ([], [])
  | r :: rs, cur =>
    let roundTokens := listTokens r
    if 10 * (cur + roundTokens) ≤ 7 * maxTokens then
      let prev := compressGo maxTokens rs (cur + roundTokens)
      (prev.1 ++ r, prev.2)
    else
      let prev := compressGo maxTokens rs cur
      (prev.1, prev.2 ++ [summarizeRound r])

/-- `AIService.compressHistory`: group messages into rounds, keep recent
rounds under the 0.7-budget, summarize the rest, and prepend a single
synthetic `system` message holding all synopses when any round was
summarized. -/
def compressHistory (messages : List ConversationMessage) (maxTokens : Nat) :
    List ConversationMessage :=
  let rounds := groupRounds messages []
  let prev := compressGo maxTokens rounds.reverse 0
  if prev.2.isEmpty then prev.1
  else
    { role := .system, content := "【历史回合摘要】\n" ++ String.intercalate "\n" prev.2 } :: prev.1

/-- `AIService.getConversationHistory`.  The store query (a Prisma
`findMany` over rounds `[max(1, currentRound - maxRounds), currentRound)`)
is passed in as its outcome: either the retrieved rows or a store error.
Any store error is caught, logged and mapped to the empty history. -/
def getConversationHistory (store : Except String (List ConversationMessage))
    (config : HistoryConfig) : List ConversationMessage :=
  if !config.enabled then []
  else
    match store with
    | .error _ => []
    | .ok history =>
      if history.isEmpty then []
      else
        let messages := history
        let totalTokens := listTokens messages
        if totalTokens > config.maxTokens && config.summarizeOldRounds then
          compressHistory messages config.maxTokens
        else messages

/-- `AIService.saveConversationHistory`.  The store write (`createMany`)
is passed in as a function from the records to its outcome.  The `catch`
block swallows every store error (it is logged, never rethrown), so the
call always resolves. -/
def saveConversationHistory (storeSave : List ConversationMessage → Except String Unit)
    (messages : List ConversationMessage) : Except String Unit :=
  match storeSave messages with
  | .ok _ => .ok ()
  | .error _ => .ok ()

/-! ## Lorebook Engine (`AIService.getTriggeredLoreEntries`) -/

structure LorebookEntry where
  id : String
  keywords : List String
  content : String
  priority : Int
  enabled : Bool
  category : String
  maxActivations : Option Nat
  activationCount : Option Nat
deriving DecidableEq, Repr

/-- The JS guard `entry.maxActivations && (entry.activationCount || 0) >=
entry.maxActivations`: note that a `maxActivations` of `0` is falsy, so
the limit check is skipped for it. -/
def activationLimitReached (e : LorebookEntry) : Bool :=
  match e.maxActivations with
  | some m => m ≠ 0 && e.activationCount.getD 0 ≥ m
  | none => false

/-- The entry loop of `getTriggeredLoreEntries`: disabled entries are
skipped; an enabled entry whose keyword occurs in the prompt fires unless
its activation limit is reached; firing increments `activationCount` (the
mutation is visible both in the triggered list and in the cache).  Returns
(triggered entries, updated cache). -/
def processLoreEntries (promptContent : String) :
    List LorebookEntry → List LorebookEntry × List LorebookEntry
  | [] => ([], [])
  | e :: rest =>
    if !e.enabled then
      let prev := processLoreEntries promptContent rest
      (prev.1, e :: prev.2)
    else if e.keywords.any (fun keyword => strIncludes promptContent keyword) then
      if activationLimitReached e then
        let prev := processLoreEntries promptContent rest
        (prev.1, e :: prev.2)
      else
        let e' := { e with activationCount := some (e.activationCount.getD 0 + 1) }
        let prev := processLoreEntries promptContent rest
        (e' :: prev.1, e' :: prev.2)
    else
      let prev := processLoreEntries promptContent rest
      (prev.1, e :: prev.2)

/-- The assembly loop: entries in priority order are appended while the
running token total stays within `maxTokens`; the first entry that would
exceed it stops the loop (`break`), and entries are never truncated. -/
def assembleLore (maxTokens : Nat) : List LorebookEntry → Nat → String → String
  | [], _, acc => acc
  | e :: rest, currentTokens, acc =>
    let entryTokens := estimateTokenCount e.content
    if currentTokens + entryTokens > maxTokens then acc
    else assembleLore maxTokens rest (currentTokens + entryTokens) (acc ++ "\n" ++ e.content ++ "\n")

/-- `AIService.getTriggeredLoreEntries`: fire matching entries, sort the
triggered ones by descending priority (JS `sort` is stable), and
concatenate their contents under the token budget.  Returns the injection
text and the updated per-session cache. -/
def getTriggeredLoreEntries (entries : List LorebookEntry) (promptContent : String)
    (maxTokens : Nat) : String × List LorebookEntry :=
  if entries.isEmpty then ("", entries)
  else
    let prev := processLoreEntries promptContent entries
    if prev.1.isEmpty then ("", prev.2)
    else
      let sorted := prev.1.mergeSort (fun a b => decide (b.priority ≤ a.priority))
      let header := "【Lorebook 背景知识】\n"
      (assembleLore maxTokens sorted (estimateTokenCount header) header, prev.2)

/-! ## Retry Executor (`AIService.callAI`) -/

/-- The observable shape of an axios failure: the HTTP status of an error
response (if any), the Node error code (if any), and the error message. -/
structure AxiosError where
  status : Option Nat
  code : Option String
  message : Option String
deriving DecidableEq, Repr

/-- The connection-class error codes of the backoff branch. -/
def networkCodes : List String :=
  ["ECONNRESET", "EPIPE", "EPROTO", "ETIMEDOUT", "ECONNREFUSED"]

/-- `isNetworkError` in `callAI`: a listed error code, or a message
mentioning `socket` or `TLS`. -/
def isNetworkError (e : AxiosError) : Bool :=
  (match e.code with
   | some c => networkCodes.contains c
   | none => false) ||
  (match e.message with
   | some m => strIncludes m "socket" || strIncludes m "TLS"
   | none => false)

/-- The retry loop of `callAI`, with the transport abstracted as an oracle
from the 1-indexed attempt number to that attempt's outcome (the decoded
response payload, or the axios error).  `remaining` counts the attempts
still allowed, so `attempt < retries` in the source corresponds to
`remaining ≠ 1` here.  On success the response is parsed and returned
immediately; on failure before the last attempt the loop sleeps
`min(base * 2^(attempt-1), 30000)` ms with `base = 3000` for
connection-class errors and `1000` otherwise.  Returns the result (the
parsed payload, or the last error after exhaustion) and the list of delays
slept. -/
def callAILoop (oracle : Nat → Except AxiosError Json) (provider : String) (attempt : Nat) :
    Nat → Except AxiosError Json × List Nat
  | 0 => (.error ⟨none, none, none⟩, [])
  | remaining + 1 =>
    match oracle attempt with
    | .ok data => (.ok (parseResponse data provider), [])
    | .error e =>
      if remaining = 0 then (.error e, [])
      else
        let base := if isNetworkError e then 3000 else 1000
        let delay := min (base * 2 ^ (attempt - 1)) 30000
        let prev := callAILoop oracle provider (attempt + 1) remaining
        (prev.1, delay :: prev.2)

/-- `AIService.callAI` for a configured endpoint: run the attempt loop
from attempt 1 with `retries` attempts allowed.  (With `retries = 0` the
source loop never executes and the aggregated error carries no underlying
error; that case is the `⟨none, none, none⟩` placeholder.) -/
def callAI (oracle : Nat → Except AxiosError Json) (provider : String) (retries : Nat) :
    Except AxiosError Json × List Nat :=
  callAILoop oracle provider 1 retries

/-! ## Fixed prompts (`双API临时区/backend/defaultPrompts.ts`) -/

def NARRATIVE_INIT_PROMPT : String :=
  "这是一场商业竞争博弈游戏，有3个主体在有限市场资源下寻求相对更优的发展，故事背景为零售行业，请尽可能生动地生成一篇长篇幅的背景故事作为游戏基础。\n\n要求：\n1. 背景故事约600-800字\n2. 介绍行业背景、市场环境、竞争格局\n3. 为3个主体分别设定：\n   - 企业名称（中文，有特色）\n   - 企业定位和特点\n   - 初始资金（100万-500万之间）\n   - 核心属性（市场份额、品牌声誉、创新能力，0-100分）\n   - 被动收入和被动支出（每回合）\n   - 简短的企业背景故事\n4. 生成一个年度卦象，包含卦名、吉凶、象曰解释\n5. 为每个主体生成3个初始决策选项"

def NARRATIVE_ROUND_PROMPT : String :=
  "推演本回合所有决策造成的影响，推演下一回合剧情走向，各主体的资金变动计算公式由你制定。\n\n具体要求：\n1. 计算本回合被动收益和被动支出结果\n2. 计算一次性收益支出结果（基于玩家决策）\n3. 更新下回合被动收益支出预算和一次性收益支出预算\n4. 计算当前资金额度\n5. 记住主体本轮决策内容\n6. 展示各决策与事件如何导致推演结果，展现连锁反应或逻辑\n7. 检测本回合推演有无玩家解锁新成就\n8. 生成下回合的3个决策选项供玩家选择\n9. 如果有主体现金流接近危险，发出警告\n\n请用生动的叙事语言描述本回合发生的一切，让玩家有沉浸感。"

def NARRATIVE_SYSTEM_PROMPT : String :=
  "你是《凡墙皆是门》商业博弈游戏的AI主持人。\n\n你的职责是：\n1. 根据玩家决策推演商业剧情\n2. 用生动、有画面感的语言描述事件\n3. 体现决策之间的因果关系和连锁反应\n4. 保持游戏的紧张感和戏剧性\n5. 公平对待每个主体，不偏袒任何一方\n\n叙事风格：\n- 使用第三人称\n- 时间节奏按季度/半年推进\n- 包含市场环境变化、竞争动态、突发事件\n- 体现商业智慧和博弈策略\n\n注意：你只需要输出剧情叙述文本，不需要输出JSON格式。数据解析由另一个AI负责。"

def PARSER_PROMPT : String :=
  "请从上述剧情文本中提取/推断以下结构化数据，如果剧情中没有明确提到，请根据剧情内容合理推断。\n\n必须输出以下JSON结构（用```json代码块包裹）：\n\n\x7b\n  \"roundTitle\": \"第X回合：20XX年X季度\",\n  \n  \"perEntityPanel\": [\n    \x7b\n      \"id\": \"A\",\n      \"name\": \"企业名称\",\n      \"cash\": 当前现金数字,\n      \"attributes\": \x7b\n        \"市场份额\": 0-100的数字,\n        \"品牌声誉\": 0-100的数字,\n        \"创新能力\": 0-100的数字\n      \x7d,\n      \"passiveIncome\": 每回合被动收入,\n      \"passiveExpense\": 每回合被动支出,\n      \"delta\": \x7b\n        \"cash\": 本回合现金变化,\n        \"市场份额\": 本回合市场份额变化,\n        \"品牌声誉\": 本回合品牌声誉变化,\n        \"创新能力\": 本回合创新能力变化\n      \x7d,\n      \"broken\": false,\n      \"achievementsUnlocked\": []\n    \x7d\n  ],\n  \n  \"leaderboard\": [\n    \x7b\n      \"id\": \"A\",\n      \"name\": \"企业名称\",\n      \"score\": 综合得分,\n      \"rank\": 排名1-3,\n      \"rankChange\": 排名变化\n    \x7d\n  ],\n  \n  \"events\": [\n    \x7b\n      \"keyword\": \"事件关键词\",\n      \"type\": \"positive或negative或neutral\",\n      \"description\": \"事件简短描述\",\n      \"affectedEntities\": [\"受影响的主体ID\"]\n    \x7d\n  ],\n  \n  \"options\": [\n    \x7b\n      \"id\": \"1\",\n      \"title\": \"选项标题\",\n      \"description\": \"选项详细描述\",\n      \"expectedDelta\": \x7b\n        \"cash\": 预期现金变化,\n        \"市场份额\": 预期市场份额变化\n      \x7d,\n      \"category\": \"attack或defense或cooperation或explore或trade\",\n      \"riskLevel\": \"low或medium或high\"\n    \x7d\n  ],\n  \n  \"ledger\": \x7b\n    \"startingCash\": 期初现金,\n    \"passiveIncome\": 被动收入合计,\n    \"passiveExpense\": 被动支出合计,\n    \"decisionCost\": 决策成本,\n    \"decisionIncome\": 决策收益,\n    \"balance\": 期末余额\n  \x7d,\n  \n  \"hexagram\": \x7b\n    \"name\": \"卦名\",\n    \"omen\": \"positive或neutral或negative\",\n    \"lines\": [\"yang\", \"yin\", \"yang\", \"yang\", \"yin\", \"yang\"],\n    \"text\": \"象曰解释\"\n  \x7d,\n  \n  \"riskCard\": \"风险评估简评（一句话）\",\n  \"opportunityCard\": \"机会评估简评（一句话）\",\n  \"benefitCard\": \"效益评估简评（一句话）\",\n  \n  \"achievements\": [\n    \x7b\n      \"id\": \"ach_xxx\",\n      \"entityId\": \"获得成就的主体ID\",\n      \"title\": \"成就标题\",\n      \"description\": \"成就描述\",\n      \"triggerReason\": \"触发原因\"\n    \x7d\n  ],\n  \n  \"nextRoundHints\": \"下回合提示（一句话）\",\n  \n  \"cashFlowWarning\": [\n    \x7b\n      \"entityId\": \"主体ID\",\n      \"message\": \"警告信息\",\n      \"severity\": \"warning或critical\"\n    \x7d\n  ]\n\x7d\n\n解析规则：\n1. perEntityPanel必须包含所有3个主体\n2. 如果剧情中没有明确数值，根据剧情描述合理推断\n3. delta表示本回合的变化量，正数增加负数减少\n4. leaderboard按score降序排列\n5. options提供3个下回合的策略选项\n6. 如果有主体现金低于被动支出的2倍，必须在cashFlowWarning中警告\n7. achievements只包含本回合新解锁的成就"

def PARSER_SYSTEM_PROMPT : String :=
  "你是一个数据解析助手，专门负责将游戏剧情文本转换为结构化JSON数据。\n\n你的职责是：\n1. 从剧情文本中提取关键数据\n2. 如果剧情中没有明确数值，根据上下文合理推断\n3. 确保输出的JSON格式正确、完整\n4. 保持数据的一致性和合理性\n\n注意：\n- 你只需要输出JSON数据，不需要额外解释\n- 必须用```json代码块包裹输出\n- 所有数值字段必须是数字类型，不能是字符串"

def PARSER_INIT_PROMPT : String :=
  "请从上述背景故事中提取游戏初始化数据，输出以下JSON结构：\n\n\x7b\n  \"backgroundStory\": \"完整的背景故事文本\",\n  \n  \"entities\": [\n    \x7b\n      \"id\": \"A\",\n      \"name\": \"企业名称\",\n      \"cash\": 初始资金,\n      \"attributes\": \x7b\n        \"市场份额\": 初始市场份额,\n        \"品牌声誉\": 初始品牌声誉,\n        \"创新能力\": 初始创新能力\n      \x7d,\n      \"passiveIncome\": 每回合被动收入,\n      \"passiveExpense\": 每回合被动支出,\n      \"backstory\": \"企业背景简介\"\n    \x7d\n  ],\n  \n  \"yearlyHexagram\": \x7b\n    \"name\": \"卦名\",\n    \"omen\": \"positive或neutral或negative\",\n    \"lines\": [\"yang\", \"yin\", \"yang\", \"yang\", \"yin\", \"yang\"],\n    \"text\": \"象曰解释\",\n    \"yearlyTheme\": \"年度主题\"\n  \x7d,\n  \n  \"initialOptions\": [\n    \x7b\n      \"id\": \"1\",\n      \"title\": \"选项标题\",\n      \"description\": \"选项描述\",\n      \"expectedDelta\": \x7b \"cash\": -50000, \"市场份额\": 5 \x7d,\n      \"category\": \"explore\",\n      \"riskLevel\": \"medium\"\n    \x7d\n  ],\n  \n  \"cashFormula\": \"资金变动公式说明\"\n\x7d\n\n要求：\n1. entities必须包含3个主体，id分别为A、B、C\n2. 初始资金在100万-500万之间\n3. 属性值在0-100之间\n4. 被动收入和支出要合理（收入略高于支出）\n5. initialOptions为每个主体提供3个初始选项"

/-! ## Dual-API layer (`双API临时区/backend`) -/

inductive ReqType where
  | init
  | round
deriving DecidableEq, Repr

/-- `narrativeApi.NarrativeRequest`. -/
structure NarrativeRequest where
  type : ReqType
  prompt : Option String
  previousParserOutput : Option String
  playerDecisions : Option (List String)
  currentRound : Option Nat
deriving DecidableEq, Repr

/-- JS string truthiness of a possibly-absent field. -/
def optStrTruthy (o : Option String) : Bool :=
  match o with
  | some s => s ≠ ""
  | none => false

/-- JS `o || d` for numbers (`0` is falsy). -/
def jsOrNat (o : Option Nat) (d : Nat) : Nat :=
  match o with
  | some n => if n = 0 then d else n
  | none => d

/-- JS `o || d` for strings (`""` is falsy). -/
def jsOrStrDefault (o : Option String) (d : String) : String :=
  match o with
  | some s => if s ≠ "" then s else d
  | none => d

/-- The numbered decision list of the round prompt: `${i + 1}. ${d}\n`. -/
def numberedDecisions (ds : List String) : String :=
  String.join (ds.enum.map (fun p => Nat.repr (p.1 + 1) ++ ". " ++ p.2 ++ "\n"))

/-- `generateNarrative`'s user prompt: the init prompt plus the optional
host addition, or the round header, previous parser output, player
decisions, host note and the fixed round requirements. -/
def buildNarrativeUserPrompt (request : NarrativeRequest) : String :=
  match request.type with
  | .init =>
    NARRATIVE_INIT_PROMPT ++
      (if optStrTruthy request.prompt then
         "\n\n【主持人补充要求】\n" ++ request.prompt.getD ""
       else "")
  | .round =>
    "# 第 " ++ Nat.repr (jsOrNat request.currentRound 1) ++ " 回合推演\n\n" ++
    (if optStrTruthy request.previousParserOutput then
       "## 上回合数值解析结果（请基于此数据推演）\n" ++ "```\n" ++
         request.previousParserOutput.getD "" ++ "\n```\n\n"
     else "") ++
    (match request.playerDecisions with
     | some ds => if ds.length > 0 then "## 本回合玩家决策\n" ++ numberedDecisions ds ++ "\n" else ""
     | none => "") ++
    (if optStrTruthy request.prompt then
       "## 主持人补充说明\n" ++ request.prompt.getD "" ++ "\n\n"
     else "") ++
    "## 推演要求\n" ++ NARRATIVE_ROUND_PROMPT

/-- `response.data?.choices?.[0]?.message?.content`. -/
def extractChoicesContent (data : Json) : Option Json :=
  (((jget data "choices").bind jget0).bind (fun m => jget m "message")).bind
    (fun m => jget m "content")

/-- The error-message classification of `generateNarrative`'s catch. -/
def narrativeErrorMessage (e : AxiosError) : String :=
  if e.status = some 401 then "API密钥无效"
  else if e.status = some 429 then "API调用频率超限"
  else if e.code = some "ETIMEDOUT" then "请求超时，请重试"
  else jsOrStrDefault e.message "剧情生成失败"

/-- The error-message classification of `parseNarrative`'s catch. -/
def parserErrorMessage (e : AxiosError) : String :=
  if e.status = some 401 then "API密钥无效"
  else if e.status = some 429 then "API调用频率超限"
  else if e.code = some "ETIMEDOUT" then "请求超时，请重试"
  else jsOrStrDefault e.message "数据解析失败"

structure NarrativeResponse where
  success : Bool
  narrative : Option String
  error : Option String
deriving DecidableEq, Repr

/-- `narrativeApi.generateNarrative`, with the single (no-retry) axios call
abstracted as its outcome.  A transport failure is caught and classified; a
response without a (truthy) content string is the `API返回内容为空`
failure; otherwise the narrative is the trimmed content.  A non-string
truthy content would make `content.trim()` throw into the same catch. -/
def generateNarrative (outcome : Except AxiosError Json) : NarrativeResponse :=
  match outcome with
  | .error e => { success := false, narrative := none, error := some (narrativeErrorMessage e) }
  | .ok data =>
    match extractChoicesContent data with
    | some (.str s) =>
      if s = "" then { success := false, narrative := none, error := some "API返回内容为空" }
      else { success := true, narrative := some (strTrim s), error := none }
    | some v =>
      if jsTruthy v then
        { success := false, narrative := none, error := some "content.trim is not a function" }
      else { success := false, narrative := none, error := some "API返回内容为空" }
    | none => { success := false, narrative := none, error := some "API返回内容为空" }

/-- The pattern loop of `parserApi.extractJsonFromResponse`: the first
non-empty candidate whose trimmed text parses to a (truthy) object with a
truthy `perEntityPanel` field. -/
def firstPanelData : List (Option String) → Option Json
  | [] => none
  | none :: rest => firstPanelData rest
  | some s :: rest =>
    if s = "" then firstPanelData rest
    else
      match jsonParse (strTrim s) with
      | none => firstPanelData rest
      | some v =>
        if jsObjectLike v && optTruthy (jget v "perEntityPanel") then some v
        else firstPanelData rest

/-- `parserApi.extractJsonFromResponse`. -/
def extractJsonFromResponse (content : String) : Option Json :=
  firstPanelData (patternCandidates content)

structure ParserResponse where
  success : Bool
  rawText : Option String
  panelData : Option Json
  parseSuccess : Option Bool
  error : Option String
deriving Repr

/-- The content-handling half of `parserApi.parseNarrative`: on a
(truthy) string content the raw text is always returned, `panelData`
carries the extraction result when it succeeded, and `parseSuccess`
records whether it did; falsy content is the `API返回内容为空` failure; a
non-string truthy content would make `content.match` throw into the
catch.  Fields the source leaves `undefined` are `none`. -/
def parseNarrativeContentResult : Option Json → ParserResponse
  | some (.str content) =>
    if content = "" then
      { success := false, rawText := none, panelData := none, parseSuccess := none,
        error := some "API返回内容为空" }
    else
      let panelData := extractJsonFromResponse content
      { success := true, rawText := some content, panelData := panelData,
        parseSuccess := some panelData.isSome, error := none }
  | some v =>
    if jsTruthy v then
      { success := false, rawText := none, panelData := none, parseSuccess := none,
        error := some "content.match is not a function" }
    else
      { success := false, rawText := none, panelData := none, parseSuccess := none,
        error := some "API返回内容为空" }
  | none =>
    { success := false, rawText := none, panelData := none, parseSuccess := none,
      error := some "API返回内容为空" }

/-- `parserApi.parseNarrative`, with the single axios call abstracted as
its outcome. -/
def parseNarrativeCall (outcome : Except AxiosError Json) : ParserResponse :=
  match outcome with
  | .error e =>
    { success := false, rawText := none, panelData := none, parseSuccess := none,
      error := some (parserErrorMessage e) }
  | .ok data => parseNarrativeContentResult (extractChoicesContent data)

/-- The JSON body of the `POST /api/dual/full-round` response.  Fields the
route leaves `undefined` are dropped by `res.json`, modelled as `none`. -/
structure FullRoundResponse where
  success : Bool
  step : Option String
  error : Option String
  narrative : Option String
  parserRawText : Option String
  panelData : Option Json
  parseSuccess : Option Bool
  parseError : Option String
deriving Repr

/-- The `POST /api/dual/full-round` orchestrator, with the two transport
outcomes abstracted.  Step 1 generates the narrative; if it did not succeed
with a truthy narrative the route returns the failure with
`step: 'narrative'` and no parser call happens.  Otherwise step 2 runs the
parser call and the route reports both results.  The second component of
the result records whether the parser call was issued. -/
def fullRound (nOutcome pOutcome : Except AxiosError Json) : FullRoundResponse × Bool :=
  let narrativeResult := generateNarrative nOutcome
  if !narrativeResult.success || !optStrTruthy narrativeResult.narrative then
    ({ success := false, step := some "narrative",
       error := some (jsOrStrDefault narrativeResult.error "剧情生成失败"),
       narrative := none, parserRawText := none, panelData := none,
       parseSuccess := none, parseError := none }, false)
  else
    let parseResult := parseNarrativeCall pOutcome
    ({ success := true, step := none, error := none,
       narrative := narrativeResult.narrative,
       parserRawText := parseResult.rawText,
       panelData := parseResult.panelData,
       parseSuccess := parseResult.parseSuccess,
       parseError := if parseResult.parseSuccess = some true then none else some "无法解析JSON结构" },
     true)

/-! ## Specification-side formulations

The definitions in this section follow the wording of the specification /
claims (they are not translations of the source); each is compared against
the corresponding source-derived definition by a theorem below. -/

/-- Keep-flags of the compression scan, newest round first: a round is
kept when its tokens plus the cumulative tokens of the rounds already kept
stay within `0.7 * maxTokens` (exactly: `10 * (cur + t) ≤ 7 * maxTokens`);
the scan continues past a round that does not fit. -/
def keepFlagsGo (maxTokens : Nat) : Nat → List Nat → List Bool
  | _, [] => []
  | cur, t :: ts =>
    if 10 * (cur + t) ≤ 7 * maxTokens then true :: keepFlagsGo maxTokens (cur + t) ts
    else false :: keepFlagsGo maxTokens cur ts

/-- The compression behaviour as described (amended): group into rounds,
scan from the most recent round backward computing keep-flags, keep the
flagged rounds whole, summarize every round that did not fit, and prepend
one synthetic system message holding the synopses (oldest first) when any
round was summarized. -/
def specCompress (messages : List ConversationMessage) (maxTokens : Nat) :
    List ConversationMessage :=
  let rounds := groupRounds messages []
  let recentFirst := rounds.reverse
  let flags := keepFlagsGo maxTokens 0 (recentFirst.map listTokens)
  let keptRecentFirst := ((recentFirst.zip flags).filter (fun p => p.2)).map (·.1)
  let summariesRecentFirst :=
    ((recentFirst.zip flags).filter (fun p => !p.2)).map (fun p => summarizeRound p.1)
  let body := keptRecentFirst.reverse.flatten
  if summariesRecentFirst.isEmpty then body
  else
    { role := .system,
      content := "【历史回合摘要】\n" ++ String.intercalate "\n" summariesRecentFirst.reverse } :: body

/-- Keep-flags under the claim's literal reading: rounds are kept while
the cumulative total stays within the budget, and *once the budget is
exhausted every remaining older round* is summarized. -/
def strictKeepFlags (maxTokens : Nat) : Nat → List Nat → List Bool
  | _, [] => []
  | cur, t :: ts =>
    if 10 * (cur + t) ≤ 7 * maxTokens then true :: strictKeepFlags maxTokens (cur + t) ts
    else (t :: ts).map (fun _ => false)

/-- The compression behaviour under the claim's literal reading. -/
def strictCompress (messages : List ConversationMessage) (maxTokens : Nat) :
    List ConversationMessage :=
  let rounds := groupRounds messages []
  let recentFirst := rounds.reverse
  let flags := strictKeepFlags maxTokens 0 (recentFirst.map listTokens)
  let keptRecentFirst := ((recentFirst.zip flags).filter (fun p => p.2)).map (·.1)
  let summariesRecentFirst :=
    ((recentFirst.zip flags).filter (fun p => !p.2)).map (fun p => summarizeRound p.1)
  let body := keptRecentFirst.reverse.flatten
  if summariesRecentFirst.isEmpty then body
  else
    { role := .system,
      content := "【历史回合摘要】\n" ++ String.intercalate "\n" summariesRecentFirst.reverse } :: body

/-- Firing an entry increments its activation count by exactly one
(`entry.activationCount = (entry.activationCount || 0) + 1`). -/
def bumpActivation (e : LorebookEntry) : LorebookEntry :=
  { e with activationCount := some (e.activationCount.getD 0 + 1) }

/-- The firing predicate as the code implements it (and as the amended
claim states it): enabled, some keyword occurs in the prompt as a
substring, and — when `maxActivations` is set to a *nonzero* value — the
activation count has not reached it. -/
def loreFires (promptContent : String) (e : LorebookEntry) : Bool :=
  e.enabled && e.keywords.any (fun keyword => strIncludes promptContent keyword) &&
    !activationLimitReached e

/-- The firing predicate under the claim's literal reading: the limit
applies whenever `maxActivations` is set, including when it is `0`. -/
def loreFiresClaim (promptContent : String) (e : LorebookEntry) : Bool :=
  e.enabled && e.keywords.any (fun keyword => strIncludes promptContent keyword) &&
    !(match e.maxActivations with
      | some m => e.activationCount.getD 0 ≥ m
      | none => false)

/-- A candidate block qualifies for `extractJsonFromResponse` exactly when
it is a non-empty match whose trimmed text parses to a (truthy) object
whose `perEntityPanel` field is present and truthy. -/
def panelCandidateOk : Option String → Bool
  | some t =>
    !(t == "") &&
      (match jsonParse (strTrim t) with
       | some v => jsObjectLike v && optTruthy (jget v "perEntityPanel")
       | none => false)
  | none => false

/-! ## Concrete inputs used by witnesses and counterexamples -/

/-- Error sequence for the retry-backoff witness: an ordinary HTTP 500 on
attempt 1, a connection reset on attempt 2, a 500 afterwards. -/
def errfEx (k : Nat) : AxiosError :=
  if k = 2 then { status := none, code := some "ECONNRESET", message := some "read ECONNRESET" }
  else { status := some 500, code := none, message := some "Request failed with status code 500" }

/-- A well-formed completion payload whose single choice carries `text`. -/
def okPayload (text : String) : Json :=
  .obj [("choices", .arr [.obj [("message", .obj [("content", .str text)])]])]

def okNarrativeOutcome (text : String) : Except AxiosError Json :=
  .ok (okPayload text)

/-- The axios timeout failure. -/
def timeoutError : AxiosError :=
  { status := none, code := some "ETIMEDOUT", message := some "timeout of 60000ms exceeded" }

/-- Four prior messages forming two rounds whose compressed form (with
`maxTokens = 20`) has 19 estimated tokens: under the budget, yet
recompression collapses it further. -/
def origC6 : List ConversationMessage :=
  [⟨.user, "x y"⟩, ⟨.assistant, "z"⟩,
   ⟨.user, "a b c d e f g"⟩, ⟨.assistant, "a b c d e f"⟩]

/-- Three rounds with (oldest first) 2, 5 and 3 estimated tokens: with
`maxTokens = 10` the scan keeps round 3 (3 ≤ 7), summarizes round 2
(8 > 7), and then *still keeps* round 1 (5 ≤ 7). -/
def exC5 : List ConversationMessage :=
  [⟨.user, "a"⟩, ⟨.assistant, "b"⟩,
   ⟨.user, "a b c"⟩, ⟨.assistant, "d e"⟩,
   ⟨.user, "a b"⟩, ⟨.assistant, "c"⟩]

/-- An enabled entry with `maxActivations = 0` whose activation count is
already positive: the JS truthiness check skips the limit entirely. -/
def loreEx : LorebookEntry :=
  { id := "e0", keywords := ["甲"], content := "背景", priority := 1, enabled := true,
    category := "entity", maxActivations := some 0, activationCount := some 5 }

/-- Parser response whose JSON parses to an object that *contains* a
`perEntityPanel` field, but with a falsy (`null`) value. -/
def cEx10 : String :=
  "```json\n\x7b\"perEntityPanel\": null\x7d\n```"

/-- A round-type narrative request whose host prompt is the parser schema
section itself. -/
def injectReq : NarrativeRequest :=
  { type := .round, prompt := some PARSER_PROMPT, previousParserOutput := none,
    playerDecisions := none, currentRound := some 1 }

/-- A plain round-type narrative request with no caller-supplied text. -/
def plainRoundReq : NarrativeRequest :=
  { type := .round, prompt := none, previousParserOutput := none,
    playerDecisions := none, currentRound := some 3 }

/-! # Theorems -/

/-- Helper: the retry loop under an all-failing oracle runs all
`remaining` attempts, the result carries the last error regardless of the
failure classes, and the `j`-th delay follows the backoff formula of the
attempt it follows. -/
theorem callAILoop_allFail (errf : Nat → AxiosError) (provider : String) :
    ∀ remaining attempt, 1 ≤ remaining →
      (callAILoop (fun k => .error (errf k)) provider attempt remaining).1 =
          .error (errf (attempt + remaining - 1)) ∧
      ((callAILoop (fun k => .error (errf k)) provider attempt remaining).2).length =
          remaining - 1 ∧
      ∀ j, j + 1 < remaining →
        ((callAILoop (fun k => .error (errf k)) provider attempt remaining).2).get? j =
          some (min ((if isNetworkError (errf (attempt + j)) then 3000 else 1000) *
            2 ^ (attempt + j - 1)) 30000) := by
  intro remaining
  induction remaining with
  | zero => intro attempt h; exact absurd h (by omega)
  | succ r ih =>
    intro attempt _
    by_cases hr : r = 0
    · subst hr
      refine ⟨?_, ?_, ?_⟩
      · simp [callAILoop]
      · simp [callAILoop]
      · intro j hj; omega
    · have h1 : 1 ≤ r := by omega
      obtain ⟨ih1, ih2, ih3⟩ := ih (attempt + 1) h1
      refine ⟨?_, ?_, ?_⟩
      · have e1 : attempt + 1 + r - 1 = attempt + (r + 1) - 1 := by omega
        rw [e1] at ih1
        simpa [callAILoop, hr] using ih1
      · have : ((callAILoop (fun k => .error (errf k)) provider (attempt + 1) r).2).length + 1 =
            r + 1 - 1 := by omega
        simpa [callAILoop, hr] using this
      · intro j hj
        match j with
        | 0 => simp [callAILoop, hr]
        | j' + 1 =>
          have hj' : j' + 1 < r := by omega
          have := ih3 j' hj'
          have e2 : attempt + 1 + j' = attempt + (j' + 1) := by omega
          rw [e2] at this
          simpa [callAILoop, hr] using this

/-- C1: inside `callAI`, for every failed attempt `n` (1-indexed,
`n < retries`) the delay slept before attempt `n + 1` equals
`min(base * 2^(n-1), 30000)` ms, where `base = 3000` exactly when the
attempt's error is connection-class (`isNetworkError`) and `1000`
otherwise; moreover all failure classes are retried identically up to
`retries` attempts: the loop slept `retries - 1` times and surfaced the
last error. -/
theorem c1_retry_backoff (errf : Nat → AxiosError) (provider : String) (retries n : Nat)
    (h1 : 1 ≤ n) (h2 : n < retries) :
    ((callAI (fun k => .error (errf k)) provider retries).2).get? (n - 1) =
        some (min ((if isNetworkError (errf n) then 3000 else 1000) * 2 ^ (n - 1)) 30000) ∧
      (callAI (fun k => .error (errf k)) provider retries).1 = .error (errf retries) ∧
      ((callAI (fun k => .error (errf k)) provider retries).2).length = retries - 1 := by
  obtain ⟨hA, hB, hC⟩ := callAILoop_allFail errf provider retries 1 (by omega)
  refine ⟨?_, ?_, ?_⟩
  · have h := hC (n - 1) (by omega)
    have e1 : 1 + (n - 1) = n := by omega
    rw [e1] at h
    simpa [callAI] using h
  · have e2 : 1 + retries - 1 = retries := by omega
    rw [e2] at hA
    simpa [callAI] using hA
  · simpa [callAI] using hB

/-- Witness for C1: `retries = 3`, a failed ordinary attempt 1 and a
failed connection-reset attempt 2 (`errfEx`). -/
theorem c1_retry_backoff_witness :
    1 ≤ 2 ∧ 2 < 3 ∧
      ((callAI (fun k => Except.error (errfEx k)) "default" 3).2).get? (2 - 1) =
        some (min ((if isNetworkError (errfEx 2) then 3000 else 1000) * 2 ^ (2 - 1)) 30000) :=
  ⟨by decide, by decide,
    (c1_retry_backoff errfEx "default" 3 2 (by decide) (by decide)).1⟩

/-- C4: no History Store error ever escapes the History Manager — a store
error during retrieval yields the empty message list, and a store error
during save is swallowed (the call always resolves). -/
theorem c4_history_store_errors_contained :
    (∀ (e : String) (config : HistoryConfig),
        getConversationHistory (.error e) config = []) ∧
    ∀ (storeSave : List ConversationMessage → Except String Unit)
      (messages : List ConversationMessage),
        saveConversationHistory storeSave messages = .ok () := by
  constructor
  · intro e config
    unfold getConversationHistory
    by_cases h : config.enabled <;> simp [h]
  · intro storeSave messages
    unfold saveConversationHistory
    cases storeSave messages <;> simp

/-- C3: when the narrative call fails (no success, or a missing/empty
narrative), the full-round orchestrator issues no parser call, reports
`step = "narrative"`, and carries the underlying error (with the route's
default when the narrative call produced no message). -/
theorem c3_narrative_failure_skips_parse_step (nOutcome pOutcome : Except AxiosError Json)
    (h : (generateNarrative nOutcome).success = false ∨
         (generateNarrative nOutcome).narrative = none ∨
         (generateNarrative nOutcome).narrative = some "") :
    (fullRound nOutcome pOutcome).2 = false ∧
    (fullRound nOutcome pOutcome).1.success = false ∧
    (fullRound nOutcome pOutcome).1.step = some "narrative" ∧
    (fullRound nOutcome pOutcome).1.error =
      some (jsOrStrDefault (generateNarrative nOutcome).error "剧情生成失败") := by
  have hcond : (!(generateNarrative nOutcome).success ||
      !optStrTruthy (generateNarrative nOutcome).narrative) = true := by
    rcases h with h | h | h
    · simp [h]
    · simp [h, optStrTruthy]
    · simp [h, optStrTruthy]
  unfold fullRound
  simp [hcond]

/-- Witness for C3: a timed-out narrative call. -/
theorem c3_narrative_failure_skips_parse_step_witness :
    (generateNarrative (Except.error timeoutError)).success = false ∧
    (fullRound (Except.error timeoutError) (okNarrativeOutcome "x")).2 = false ∧
    (fullRound (Except.error timeoutError) (okNarrativeOutcome "x")).1.step = some "narrative" := by
  have h := c3_narrative_failure_skips_parse_step (Except.error timeoutError)
    (okNarrativeOutcome "x") (Or.inl rfl)
  exact ⟨rfl, h.1, h.2.2.1⟩

/-- Helper: a left fold accumulating `+ f m` equals the starting value
plus the mapped sum. -/
theorem foldl_add_map_sum {α : Type} (f : α → Nat) :
    ∀ (l : List α) (a : Nat), l.foldl (fun sum m => sum + f m) a = a + (l.map f).sum := by
  intro l
  induction l with
  | nil => intro a; simp
  | cons m ms ih => intro a; simp [ih]; omega

theorem listTokens_eq_sum (l : List ConversationMessage) :
    listTokens l = (l.map (fun m => estimateTokenCount m.content)).sum := by
  simpa [listTokens] using foldl_add_map_sum (fun m => estimateTokenCount m.content) l 0

theorem listTokens_append (a b : List ConversationMessage) :
    listTokens (a ++ b) = listTokens a + listTokens b := by
  simp [listTokens_eq_sum]

/-- Helper: the per-round grouping partitions the messages. -/
theorem groupRounds_flatten :
    ∀ (ms acc : List ConversationMessage), (groupRounds ms acc).flatten = acc ++ ms := by
  intro ms
  induction ms with
  | nil =>
    intro acc
    by_cases h : acc.isEmpty
    · have : acc = [] := by simpa [List.isEmpty_iff] using h
      subst this; simp [groupRounds]
    · simp [groupRounds, h]
  | cons m rest ih =>
    intro acc
    by_cases h : m.role = Role.assistant
    · simp [groupRounds, h, ih]
    · simp [groupRounds, h, ih]

theorem sum_map_listTokens :
    ∀ gs : List (List ConversationMessage), (gs.map listTokens).sum = listTokens gs.flatten := by
  intro gs
  induction gs with
  | nil => simp [listTokens]
  | cons g rest ih => simp [listTokens_append, ih]

/-- Helper: when everything fits under the 0.7-budget, the scan keeps
every round and produces no synopsis. -/
theorem compressGo_allKept (maxTokens : Nat) :
    ∀ (rs : List (List ConversationMessage)) (cur : Nat),
      10 * (cur + (rs.map listTokens).sum) ≤ 7 * maxTokens →
      compressGo maxTokens rs cur = (rs.reverse.flatten, []) := by
  intro rs
  induction rs with
  | nil => intro cur _; simp [compressGo]
  | cons r rest ih =>
    intro cur h
    have hsum : (rest.map listTokens).sum + listTokens r + cur =
        cur + ((r :: rest).map listTokens).sum := by simp; omega
    have hk : 10 * (cur + listTokens r) ≤ 7 * maxTokens := by
      simp only [List.map_cons, List.sum_cons] at h; omega
    have hrec : 10 * ((cur + listTokens r) + (rest.map listTokens).sum) ≤ 7 * maxTokens := by
      simp only [List.map_cons, List.sum_cons] at h; omega
    simp [compressGo, hk, ih _ hrec]

/-- C6 (amended): a message list whose total estimated tokens already fit
under the compression keep-threshold (`0.7 * maxTokens`, exactly
`10 * tokens ≤ 7 * maxTokens`) is returned by `compressHistory`
unchanged — in particular its message count is not reduced. -/
theorem c6_recompress_identity (messages : List ConversationMessage) (maxTokens : Nat)
    (h : 10 * listTokens messages ≤ 7 * maxTokens) :
    compressHistory messages maxTokens = messages := by
  have hsum : ((groupRounds messages []).reverse.map listTokens).sum = listTokens messages := by
    rw [List.map_reverse, List.sum_reverse, sum_map_listTokens, groupRounds_flatten]
    simp
  have hgo := compressGo_allKept maxTokens (groupRounds messages []).reverse 0 (by rw [hsum]; omega)
  simp only [compressHistory]
  rw [hgo]
  simp [groupRounds_flatten]

/-- C6 counterexample: `origC6` compresses (at `maxTokens = 20`) to a
3-message list of 19 estimated tokens — under the budget — whose
recompression with the same `maxTokens` drops it to a single message,
because the synthetic synopsis message merges into the oldest kept round
and pushes the round group over the 0.7-threshold. -/
theorem c6_recompress_counterexample :
    listTokens (compressHistory origC6 20) ≤ 20 ∧
    (compressHistory (compressHistory origC6 20) 20).length <
      (compressHistory origC6 20).length := by decide

/-- Helper: `isEmpty` is invariant under `reverse`. -/
theorem isEmpty_reverse {α : Type} (l : List α) : l.reverse.isEmpty = l.isEmpty := by
  cases l with
  | nil => rfl
  | cons a as => simp [List.isEmpty_iff]

/-- Helper: the single-pass scan of `compressGo` agrees with the
keep-flag formulation: a round is kept iff its flag (computed newest-first
with the running kept-total) is true, kept rounds are emitted oldest
first, and summarized rounds yield synopses oldest first. -/
theorem compressGo_spec (maxTokens : Nat) :
    ∀ (rs : List (List ConversationMessage)) (cur : Nat),
      compressGo maxTokens rs cur =
        (((((rs.zip (keepFlagsGo maxTokens cur (rs.map listTokens))).filter
              (fun p => p.2)).map (·.1)).reverse).flatten,
         (((rs.zip (keepFlagsGo maxTokens cur (rs.map listTokens))).filter
              (fun p => !p.2)).map (fun p => summarizeRound p.1)).reverse) := by
  intro rs
  induction rs with
  | nil => intro cur; simp [compressGo, keepFlagsGo]
  | cons r rest ih =>
    intro cur
    by_cases hk : 10 * (cur + listTokens r) ≤ 7 * maxTokens
    · simp [compressGo, keepFlagsGo, hk, ih]
    · simp [compressGo, keepFlagsGo, hk, ih]

/-- C5 (amended): `compressHistory` equals the specification-side
description `specCompress`: per-round grouping; newest-backward scan in
which each round is kept exactly when its tokens plus the cumulative
tokens of the rounds kept so far stay within `0.7 * maxTokens` (the scan
does not stop at the first round that fails to fit); every round that does
not fit is replaced by a `summarizeRound` synopsis; all synopses are
prepended as one synthetic system message ahead of the retained rounds. -/
theorem c5_compress_characterization (messages : List ConversationMessage) (maxTokens : Nat)
    (config : HistoryConfig) :
    compressHistory messages maxTokens = specCompress messages maxTokens ∧
    (config.enabled = true → messages ≠ [] → listTokens messages > config.maxTokens →
      config.summarizeOldRounds = true →
      getConversationHistory (.ok messages) config = specCompress messages config.maxTokens) := by
  have main : ∀ maxT, compressHistory messages maxT = specCompress messages maxT := by
    intro maxT
    simp only [compressHistory, specCompress]
    rw [compressGo_spec]
    simp only [isEmpty_reverse]
  refine ⟨main maxTokens, ?_⟩
  intro he hne hgt hsum
  have hemp : messages.isEmpty = false := by
    simpa [List.isEmpty_iff] using hne
  simp [getConversationHistory, he, hemp, hgt, hsum, main]

/-- Witness for C5: retrieving `exC5` with `maxTokens = 9` exceeds the
budget and triggers the characterized compression. -/
theorem c5_compress_characterization_witness :
    listTokens exC5 > 9 ∧
    getConversationHistory (.ok exC5)
        { enabled := true, maxRounds := 10, maxTokens := 9, summarizeOldRounds := true } =
      specCompress exC5 9 := by
  have h := (c5_compress_characterization exC5 9
    { enabled := true, maxRounds := 10, maxTokens := 9, summarizeOldRounds := true }).2
    rfl (by decide) (by decide) rfl
  exact ⟨by decide, h⟩

/-- C5 counterexample: on `exC5` (rounds of 2, 5 and 3 tokens, oldest
first, `maxTokens = 10`) the code keeps round 1 in full even though the
older-round budget was already exhausted at round 2, so the literal
"once the budget is exhausted, each remaining older round is summarized"
reading (`strictCompress`) disagrees with the code. -/
theorem c5_compress_counterexample :
    compressHistory exC5 10 ≠ strictCompress exC5 10 ∧
    compressHistory exC5 10 =
      [⟨.system, "【历史回合摘要】\n第?回合: "⟩,
       ⟨.user, "a"⟩, ⟨.assistant, "b"⟩, ⟨.user, "a b"⟩, ⟨.assistant, "c"⟩] := by decide

/-- C7 (amended): in `getTriggeredLoreEntries` an entry fires iff it is
enabled, one of its keywords occurs in the prompt as a substring, and —
when `maxActivations` is set to a *nonzero* value (JS truthiness: a limit
of `0` is ignored) — its activation count has not reached the limit; each
firing increments the activation count by exactly one, both in the
triggered list and in the session cache. -/
theorem c7_lorebook_trigger (promptContent : String) (entries : List LorebookEntry)
    (maxTokens : Nat) :
    processLoreEntries promptContent entries =
      ((entries.filter (loreFires promptContent)).map bumpActivation,
       entries.map (fun e => if loreFires promptContent e then bumpActivation e else e)) ∧
    (getTriggeredLoreEntries entries promptContent maxTokens).2 =
      entries.map (fun e => if loreFires promptContent e then bumpActivation e else e) := by
  have main : ∀ es : List LorebookEntry,
      processLoreEntries promptContent es =
        ((es.filter (loreFires promptContent)).map bumpActivation,
         es.map (fun e => if loreFires promptContent e then bumpActivation e else e)) := by
    intro es
    induction es with
    | nil => simp [processLoreEntries]
    | cons e rest ih =>
      by_cases he : e.enabled
      · by_cases hk : e.keywords.any (fun keyword => strIncludes promptContent keyword)
        · have hk' : ∃ x ∈ e.keywords, strIncludes promptContent x = true := by
            simpa [List.any_eq_true] using hk
          by_cases hl : activationLimitReached e
          · simp [processLoreEntries, he, hk, hl, ih, loreFires, bumpActivation, hk']
          · simp [processLoreEntries, he, hk, hl, ih, loreFires, bumpActivation, hk']
        · have hk' : ¬ ∃ x ∈ e.keywords, strIncludes promptContent x = true := by
            simpa [List.any_eq_true] using hk
          simp [processLoreEntries, he, hk, ih, loreFires, hk']
      · simp [processLoreEntries, he, ih, loreFires]
  refine ⟨main entries, ?_⟩
  by_cases hE : entries.isEmpty
  · have : entries = [] := by simpa [List.isEmpty_iff] using hE
    subst this
    simp [getTriggeredLoreEntries]
  · simp only [getTriggeredLoreEntries, hE, main entries]
    by_cases ht : ((entries.filter (loreFires promptContent)).map bumpActivation).isEmpty <;>
      simp [ht]

/-- C7 counterexample: `loreEx` is enabled, keyword-matched, has
`maxActivations` set (to 0) and an activation count that has long reached
it — the claim as stated predicts no firing, but the code fires it and
increments its count from 5 to 6. -/
theorem c7_lorebook_counterexample :
    loreFiresClaim "见甲方" loreEx = false ∧
    (processLoreEntries "见甲方" [loreEx]).1 =
      [{ loreEx with activationCount := some 6 }] := by decide

/-- Helper: a parser call that did not succeed reports no raw text, no
panel data and no parse flag (the source returns only `success`/`error`). -/
theorem parseNarrativeCall_failure (pOutcome : Except AxiosError Json)
    (h : (parseNarrativeCall pOutcome).success = false) :
    (parseNarrativeCall pOutcome).rawText = none ∧
    (parseNarrativeCall pOutcome).panelData = none ∧
    (parseNarrativeCall pOutcome).parseSuccess = none := by
  cases pOutcome with
  | error e => simp [parseNarrativeCall]
  | ok data =>
    rw [show parseNarrativeCall (.ok data) =
      parseNarrativeContentResult (extractChoicesContent data) from rfl] at h ⊢
    cases hcv : extractChoicesContent data with
    | none => simp [parseNarrativeContentResult]
    | some v =>
      rw [hcv] at h
      cases v with
      | str s =>
        by_cases hs : s = ""
        · simp [parseNarrativeContentResult, hs]
        · simp [parseNarrativeContentResult, hs] at h
      | null => simp [parseNarrativeContentResult, jsTruthy]
      | bool b => cases b <;> simp [parseNarrativeContentResult, jsTruthy]
      | num q => by_cases hq : q = 0 <;> simp [parseNarrativeContentResult, jsTruthy, hq]
      | arr xs => simp [parseNarrativeContentResult, jsTruthy]
      | obj fs => simp [parseNarrativeContentResult, jsTruthy]

/-- Helper: `parseSuccess = some false` can only come from the success
branch with a failed extraction, so no panel data is attached. -/
theorem parseNarrativeCall_parseFailed (pOutcome : Except AxiosError Json)
    (h : (parseNarrativeCall pOutcome).parseSuccess = some false) :
    (parseNarrativeCall pOutcome).panelData = none := by
  cases pOutcome with
  | error e => simp [parseNarrativeCall]
  | ok data =>
    rw [show parseNarrativeCall (.ok data) =
      parseNarrativeContentResult (extractChoicesContent data) from rfl] at h ⊢
    cases hcv : extractChoicesContent data with
    | none => simp [parseNarrativeContentResult]
    | some v =>
      rw [hcv] at h
      cases v with
      | str s =>
        by_cases hs : s = ""
        · simp [parseNarrativeContentResult, hs]
        · simp only [parseNarrativeContentResult, hs, if_false] at h ⊢
          simp at h ⊢
          simpa [Option.isSome_iff_exists] using h
      | null => simp [parseNarrativeContentResult, jsTruthy]
      | bool b => cases b <;> simp [parseNarrativeContentResult, jsTruthy]
      | num q => by_cases hq : q = 0 <;> simp [parseNarrativeContentResult, jsTruthy, hq]
      | arr xs => simp [parseNarrativeContentResult, jsTruthy]
      | obj fs => simp [parseNarrativeContentResult, jsTruthy]

/-- C2 (amended): once the narrative call has succeeded with a non-empty
narrative `t`, the full-round response always reports `success = true`
with the exact narrative text `t`, and simply passes the parser call's
fields through: when the parser responded with unparsable text the
response has `parseSuccess = some false`, no panel data and
`parseError = "无法解析JSON结构"` while the parser's raw text is
preserved; when the parser call itself failed, `parseSuccess`,
`parserRawText` and `panelData` are all absent (`none`), not `false`. -/
theorem c2_parser_degradation (nOutcome pOutcome : Except AxiosError Json) (t : String)
    (hs : (generateNarrative nOutcome).success = true)
    (hn : (generateNarrative nOutcome).narrative = some t)
    (ht : t ≠ "") :
    (fullRound nOutcome pOutcome).1.success = true ∧
    (fullRound nOutcome pOutcome).1.narrative = some t ∧
    (fullRound nOutcome pOutcome).1.parserRawText = (parseNarrativeCall pOutcome).rawText ∧
    (fullRound nOutcome pOutcome).1.panelData = (parseNarrativeCall pOutcome).panelData ∧
    (fullRound nOutcome pOutcome).1.parseSuccess = (parseNarrativeCall pOutcome).parseSuccess ∧
    ((parseNarrativeCall pOutcome).parseSuccess = some false →
      (fullRound nOutcome pOutcome).1.panelData = none ∧
      (fullRound nOutcome pOutcome).1.parseError = some "无法解析JSON结构") ∧
    ((parseNarrativeCall pOutcome).success = false →
      (fullRound nOutcome pOutcome).1.parserRawText = none ∧
      (fullRound nOutcome pOutcome).1.parseSuccess = none) := by
  have hcond : (!(generateNarrative nOutcome).success ||
      !optStrTruthy (generateNarrative nOutcome).narrative) = false := by
    simp [hs, hn, optStrTruthy, ht]
  have hmain : (fullRound nOutcome pOutcome).1 =
      { success := true, step := none, error := none,
        narrative := (generateNarrative nOutcome).narrative,
        parserRawText := (parseNarrativeCall pOutcome).rawText,
        panelData := (parseNarrativeCall pOutcome).panelData,
        parseSuccess := (parseNarrativeCall pOutcome).parseSuccess,
        parseError := if (parseNarrativeCall pOutcome).parseSuccess = some true then none
          else some "无法解析JSON结构" } := by
    simp [fullRound, hcond]
  refine ⟨by simp [hmain], by simp [hmain, hn], by simp [hmain], by simp [hmain],
    by simp [hmain], ?_, ?_⟩
  · intro hpf
    constructor
    · simp [hmain, parseNarrativeCall_parseFailed pOutcome hpf]
    · simp [hmain, hpf]
  · intro hfail
    have h3 := parseNarrativeCall_failure pOutcome hfail
    exact ⟨by simp [hmain, h3.1], by simp [hmain, h3.2.2]⟩

/-- Witness for C2: a successful narrative (`一段剧情`) followed by a
parser response that is plain prose (no JSON block). -/
theorem c2_parser_degradation_witness :
    (generateNarrative (okNarrativeOutcome "一段剧情")).success = true ∧
    (fullRound (okNarrativeOutcome "一段剧情") (okNarrativeOutcome "纯文本")).1.narrative =
      some "一段剧情" ∧
    (fullRound (okNarrativeOutcome "一段剧情") (okNarrativeOutcome "纯文本")).1.parseSuccess =
      (parseNarrativeCall (okNarrativeOutcome "纯文本")).parseSuccess := by
  have h := c2_parser_degradation (okNarrativeOutcome "一段剧情") (okNarrativeOutcome "纯文本")
    "一段剧情" rfl rfl (by decide)
  exact ⟨rfl, h.2.1, h.2.2.2.2.1⟩

/-- C2 counterexample: with a successful narrative and a parser call that
fails in transport (timeout), the narrative is preserved but the response
does *not* mark `parseSuccess = false` — the field is absent (`none`),
and there is no raw parser text to preserve. -/
theorem c2_parser_failure_counterexample :
    (fullRound (okNarrativeOutcome "一段剧情") (Except.error timeoutError)).2 = true ∧
    (fullRound (okNarrativeOutcome "一段剧情") (Except.error timeoutError)).1.success = true ∧
    (fullRound (okNarrativeOutcome "一段剧情") (Except.error timeoutError)).1.narrative =
      some "一段剧情" ∧
    (fullRound (okNarrativeOutcome "一段剧情") (Except.error timeoutError)).1.parseSuccess = none ∧
    (fullRound (okNarrativeOutcome "一段剧情") (Except.error timeoutError)).1.parseSuccess ≠
      some false ∧
    (fullRound (okNarrativeOutcome "一段剧情") (Except.error timeoutError)).1.parserRawText =
      none := by
  refine ⟨rfl, rfl, rfl, rfl, by decide, rfl⟩

/-- Helper: base-10 digit characters are `'0'`–`'9'`. -/
theorem digitChar_lt_ten_isDigit : ∀ r : Nat, r < 10 → isAsciiDigit (Nat.digitChar r) = true := by
  intro r h
  interval_cases r <;> decide

/-- Helper: every character produced by `Nat.toDigitsCore 10` beyond the
accumulator is an ASCII digit. -/
theorem toDigitsCore_ten_mem :
    ∀ (fuel n : Nat) (acc : List Char) (c : Char),
      c ∈ Nat.toDigitsCore 10 fuel n acc → c ∈ acc ∨ isAsciiDigit c = true := by
  intro fuel
  induction fuel with
  | zero => intro n acc c h; simp [Nat.toDigitsCore] at h; exact Or.inl h
  | succ f ih =>
    intro n acc c h
    rw [Nat.toDigitsCore] at h
    by_cases hz : n / 10 = 0
    · simp only [hz, if_true] at h
      rcases List.mem_cons.mp h with h | h
      · exact Or.inr (h ▸ digitChar_lt_ten_isDigit _ (Nat.mod_lt n (by norm_num)))
      · exact Or.inl h
    · simp only [hz, if_false] at h
      rcases ih (n / 10) (Nat.digitChar (n % 10) :: acc) c h with h2 | h2
      · rcases List.mem_cons.mp h2 with h3 | h3
        · exact Or.inr (h3 ▸ digitChar_lt_ten_isDigit _ (Nat.mod_lt n (by norm_num)))
        · exact Or.inl h3
      · exact Or.inr h2

/-- Helper: the decimal rendering of a natural number consists of ASCII
digits only. -/
theorem repr_chars_digits (n : Nat) : ∀ c ∈ (Nat.repr n).data, isAsciiDigit c = true := by
  intro c hc
  have he : (Nat.repr n).data = Nat.toDigitsCore 10 (n + 1) n [] := rfl
  rw [he] at hc
  rcases toDigitsCore_ten_mem (n + 1) n [] c hc with h | h
  · simp at h
  · exact h

/-- Helper: a string containing a non-digit character is not the decimal
rendering of any natural number. -/
theorem toString_nat_ne_of_nondigit (i : Nat) (k : String) (c : Char) (hc : c ∈ k.data)
    (hd : isAsciiDigit c = false) : toString i ≠ k := by
  intro he
  have hmem : c ∈ (Nat.repr i).data := by
    rw [show Nat.repr i = k from he]
    exact hc
  have := repr_chars_digits i c hmem
  simp [this] at hd

/-- Helper: updating key `kk` leaves the bindings of a different key `k`
untouched. -/
theorem map_upd_filter (fs : List (String × Json)) (kk k : String) (v : Json) (h : kk ≠ k) :
    (fs.map (fun p => if p.1 = kk then (kk, v) else p)).filter (fun p => p.1 = k) =
      fs.filter (fun p => p.1 = k) := by
  induction fs with
  | nil => rfl
  | cons p rest ih =>
    by_cases hp : p.1 = kk
    · simp [hp, h, ih, List.filter_cons]
    · simp [hp, ih, List.filter_cons]

theorem upsert_filter_ne (fs : List (String × Json)) (kk k : String) (v : Json) (h : kk ≠ k) :
    (upsert fs kk v).filter (fun p => p.1 = k) = fs.filter (fun p => p.1 = k) := by
  unfold upsert
  by_cases hex : fs.any (fun p => p.1 = kk)
  · simp only [hex, if_true]
    exact map_upd_filter fs kk k v h
  · simp only [hex, if_false]
    simp [List.filter_append, h]

/-- Helper: spreading entries whose keys all differ from `k` does not
change the bindings of `k`. -/
theorem foldl_upsert_filter (k : String) :
    ∀ (ps fs : List (String × Json)),
      (∀ p ∈ ps, p.1 ≠ k) →
      ((ps.foldl (fun fs2 p => upsert fs2 p.1 p.2) fs).filter (fun q => q.1 = k)) =
        fs.filter (fun q => q.1 = k) := by
  intro ps
  induction ps with
  | nil => intro fs _; rfl
  | cons p rest ih =>
    intro fs hall
    simp only [List.foldl_cons]
    rw [ih _ (fun q hq => hall q (List.mem_cons_of_mem _ hq))]
    exact upsert_filter_ne fs p.1 k p.2 (hall p (List.mem_cons_self _ _))

/-- Helper: reading key `k` through an array spread over `base` sees the
`base` bindings, because array spread keys are all decimal indices. -/
theorem jget_spread_base (xs : List Json) (base : List (String × Json)) (k : String)
    (c : Char) (hc : c ∈ k.data) (hd : isAsciiDigit c = false) :
    jget (.obj ((jsSpreadFields (.arr xs)).foldl (fun fs2 p => upsert fs2 p.1 p.2) base)) k =
      ((base.filter (fun q => q.1 = k)).getLast?).map (·.2) := by
  have hall : ∀ p ∈ jsSpreadFields (.arr xs), p.1 ≠ k := by
    intro p hp
    simp only [jsSpreadFields, List.mem_map] at hp
    obtain ⟨a, _, rfl⟩ := hp
    exact toString_nat_ne_of_nondigit a.1 k c hc hd
  simp only [jget]
  rw [foldl_upsert_filter k _ base hall]

/-- Helper: when no candidate parses to a (truthy) JSON *object*, the
pattern loop yields nothing or an array. -/
theorem firstParsedObjLike_cases :
    ∀ cands : List (Option String),
      (∀ s, some s ∈ cands → ∀ fields, jsonParse (strTrim s) ≠ some (Json.obj fields)) →
      firstParsedObjLike cands = none ∨
        ∃ xs, firstParsedObjLike cands = some (Json.arr xs) := by
  intro cands
  induction cands with
  | nil => intro _; exact Or.inl rfl
  | cons c rest ih =>
    intro h
    have hrest : ∀ s, some s ∈ rest → ∀ fields, jsonParse (strTrim s) ≠ some (Json.obj fields) :=
      fun s hs => h s (List.mem_cons_of_mem _ hs)
    cases c with
    | none => simpa [firstParsedObjLike] using ih hrest
    | some s =>
      by_cases hs : s = ""
      · simpa [firstParsedObjLike, hs] using ih hrest
      · cases hp : jsonParse (strTrim s) with
        | none => simpa [firstParsedObjLike, hs, hp] using ih hrest
        | some v =>
          cases v with
          | obj fields => exact absurd hp (h s (List.mem_cons_self _ _) fields)
          | arr xs =>
            exact Or.inr ⟨xs, by simp [firstParsedObjLike, hs, hp, jsObjectLike]⟩
          | null => simpa [firstParsedObjLike, hs, hp, jsObjectLike] using ih hrest
          | bool b => simpa [firstParsedObjLike, hs, hp, jsObjectLike] using ih hrest
          | num q => simpa [firstParsedObjLike, hs, hp, jsObjectLike] using ih hrest
          | str t => simpa [firstParsedObjLike, hs, hp, jsObjectLike] using ih hrest

/-- C8: whenever none of the three extraction patterns yields text that
parses (after trimming) to a JSON object, `parseNarrativeResponse` returns
the entire raw text as the narrative together with empty `outcomes` and
`events` arrays.  (The Lean function is total, mirroring that the JS
original never throws.) -/
theorem c8_parse_fallback (content : String)
    (h : ∀ s, some s ∈ patternCandidates content →
        ∀ fields, jsonParse (strTrim s) ≠ some (Json.obj fields)) :
    jget (parseNarrativeResponse content) "narrative" = some (.str content) ∧
    jget (parseNarrativeResponse content) "outcomes" = some (.arr []) ∧
    jget (parseNarrativeResponse content) "events" = some (.arr []) := by
  rcases firstParsedObjLike_cases (patternCandidates content) h with hno | ⟨xs, harr⟩
  · rw [show parseNarrativeResponse content =
      Json.obj [("narrative", .str content), ("outcomes", .arr []), ("events", .arr [])] by
        simp [parseNarrativeResponse, hno]]
    exact ⟨rfl, rfl, rfl⟩
  · have hbase : parseNarrativeResponse content = Json.obj
        ((jsSpreadFields (.arr xs)).foldl (fun fs2 p => upsert fs2 p.1 p.2)
          [("narrative", .str content), ("outcomes", .arr []), ("events", .arr [])]) := by
      rw [show parseNarrativeResponse content = jsObject [
        .kv "narrative" (some (jsOrJ (jget (.arr xs) "narrative") (.str content))),
        .kv "outcomes" (some (.arr (mapEntityPanelsToOutcomes (jget (.arr xs) "perEntityPanel")))),
        .kv "events" (some (.arr (mapTurnEvents (jget (.arr xs) "events")))),
        .kv "nextRoundHints" (jget (.arr xs) "nextRoundHints"),
        .spread (.arr xs)] by simp [parseNarrativeResponse, harr]]
      rfl
    refine ⟨?_, ?_, ?_⟩
    · rw [hbase, jget_spread_base xs _ "narrative" 'n' (by decide) (by decide)]
      rfl
    · rw [hbase, jget_spread_base xs _ "outcomes" 'o' (by decide) (by decide)]
      rfl
    · rw [hbase, jget_spread_base xs _ "events" 'e' (by decide) (by decide)]
      rfl

/-- Witness for C8: a plain-prose response with no fence and no braces. -/
theorem c8_parse_fallback_witness :
    jget (parseNarrativeResponse "你好，世界") "narrative" = some (.str "你好，世界") ∧
    jget (parseNarrativeResponse "你好，世界") "outcomes" = some (.arr []) ∧
    jget (parseNarrativeResponse "你好，世界") "events" = some (.arr []) := by
  exact c8_parse_fallback "你好，世界" (by
    intro s hs
    rw [show patternCandidates "你好，世界" = [none, none, none] from rfl] at hs
    simp at hs)

/-- Helper: a prefix match only uses characters of the scanned list. -/
theorem startsWithL_sub : ∀ (p s : List Char), startsWithL s p = true → ∀ c ∈ p, c ∈ s := by
  intro p
  induction p with
  | nil => intro s _ c hc; simp at hc
  | cons b bs ih =>
    intro s h c hc
    cases s with
    | nil => simp [startsWithL] at h
    | cons a as =>
      simp only [startsWithL, Bool.and_eq_true, decide_eq_true_eq] at h
      obtain ⟨hab, hrest⟩ := h
      rcases List.mem_cons.mp hc with rfl | hc2
      · subst hab; exact List.mem_cons_self _ _
      · exact List.mem_cons_of_mem _ (ih as hrest c hc2)

/-- Helper: an occurring pattern only uses characters of the text. -/
theorem occursL_sub : ∀ (s p : List Char), occursL s p = true → ∀ c ∈ p, c ∈ s := by
  intro s
  induction s with
  | nil =>
    intro p h c hc
    cases p with
    | nil => simp at hc
    | cons b bs => simp [occursL, startsWithL] at h
  | cons a as ih =>
    intro p h c hc
    simp only [occursL, Bool.or_eq_true] at h
    rcases h with h | h
    · exact startsWithL_sub p (a :: as) h c hc
    · exact List.mem_cons_of_mem _ (ih p h c hc)

/-- Helper: a text that lacks some character of the pattern cannot contain
the pattern. -/
theorem not_strIncludes_of_marker (s pat : String) (c : Char) (hc : c ∈ pat.data)
    (hs : c ∉ s.data) : strIncludes s pat = false := by
  by_contra h
  have h2 : occursL s.data pat.data = true := by
    simpa [strIncludes] using h
  exact hs (occursL_sub s.data pat.data h2 c hc)

theorem startsWithL_append_self : ∀ (p rest : List Char), startsWithL (p ++ rest) p = true := by
  intro p
  induction p with
  | nil => intro rest; cases rest <;> simp [startsWithL]
  | cons b bs ih => intro rest; simp [startsWithL, ih]

theorem occursL_append_right : ∀ (x t p : List Char), occursL t p = true →
    occursL (x ++ t) p = true := by
  intro x
  induction x with
  | nil => intro t p h; simpa using h
  | cons c cs ih => intro t p h; simp [occursL, ih t p h]

theorem occursL_self_append (p b : List Char) : occursL (p ++ b) p = true := by
  cases p with
  | nil => cases b <;> simp [occursL, startsWithL]
  | cons q qs =>
    have h := startsWithL_append_self (q :: qs) b
    rw [List.cons_append] at h
    simp [occursL, h]

/-- C9 counterexample: a round request whose host prompt is the parser
schema section itself produces a narrative user prompt that *does* contain
the schema-request section. -/
theorem c9_prompt_injection_counterexample :
    strIncludes (buildNarrativeUserPrompt injectReq) PARSER_PROMPT = true := by
  have hne : PARSER_PROMPT ≠ "" := by decide
  have hb : buildNarrativeUserPrompt injectReq =
      "# 第 " ++ Nat.repr 1 ++ " 回合推演\n\n" ++
        ("## 主持人补充说明\n" ++ PARSER_PROMPT ++ "\n\n") ++ "## 推演要求\n" ++
        NARRATIVE_ROUND_PROMPT := by
    simp [buildNarrativeUserPrompt, injectReq, optStrTruthy, jsOrNat, hne]
  rw [show strIncludes (buildNarrativeUserPrompt injectReq) PARSER_PROMPT =
    occursL (buildNarrativeUserPrompt injectReq).data PARSER_PROMPT.data from rfl, hb]
  simp only [String.data_append, List.append_assoc]
  apply occursL_append_right
  apply occursL_append_right
  apply occursL_append_right
  apply occursL_append_right
  exact occursL_self_append PARSER_PROMPT.data _

/-- C9 (amended): none of the fixed narrative prompt templates contains
the parser schema-request section, and a narrative request that carries no
caller-supplied free text (falsy host prompt, falsy previous parser
output, no decisions) produces a user prompt free of it for both request
types and every round number; the guarantee does not extend to requests
whose caller-supplied text smuggles the section in (see the
counterexample). -/
theorem c9_narrative_prompt_purity (r : NarrativeRequest)
    (hp : optStrTruthy r.prompt = false)
    (ho : optStrTruthy r.previousParserOutput = false)
    (hd : r.playerDecisions.getD [] = []) :
    strIncludes NARRATIVE_SYSTEM_PROMPT PARSER_PROMPT = false ∧
    strIncludes NARRATIVE_INIT_PROMPT PARSER_PROMPT = false ∧
    strIncludes NARRATIVE_ROUND_PROMPT PARSER_PROMPT = false ∧
    strIncludes (buildNarrativeUserPrompt r) PARSER_PROMPT = false := by
  have hmark : ∀ s : String, 'p' ∉ s.data → strIncludes s PARSER_PROMPT = false := fun s hs =>
    not_strIncludes_of_marker s PARSER_PROMPT 'p' (by decide) hs
  refine ⟨hmark _ (by decide), hmark _ (by decide), hmark _ (by decide), ?_⟩
  cases htype : r.type with
  | init =>
    have hb : buildNarrativeUserPrompt r = NARRATIVE_INIT_PROMPT ++ "" := by
      simp [buildNarrativeUserPrompt, htype, hp]
    rw [hb]
    apply hmark
    intro hmem
    rw [String.data_append] at hmem
    simp only [List.mem_append] at hmem
    rcases hmem with hmem | hmem
    · exact absurd hmem (by decide)
    · exact absurd hmem (by decide)
  | round =>
    have hdec : (match r.playerDecisions with
        | some ds => if ds.length > 0 then "## 本回合玩家决策\n" ++ numberedDecisions ds ++ "\n" else ""
        | none => "") = "" := by
      cases hpd : r.playerDecisions with
      | none => rfl
      | some ds =>
        have : ds = [] := by simpa [hpd] using hd
        simp [this]
    have hb : buildNarrativeUserPrompt r =
        "# 第 " ++ Nat.repr (jsOrNat r.currentRound 1) ++ " 回合推演\n\n" ++ "" ++ "" ++ "" ++
          "## 推演要求\n" ++ NARRATIVE_ROUND_PROMPT := by
      simp [buildNarrativeUserPrompt, htype, hp, ho, hdec]
    rw [hb]
    apply hmark
    intro hmem
    simp only [String.data_append, List.mem_append] at hmem
    rcases hmem with ((((((hmem | hmem) | hmem) | hmem) | hmem) | hmem) | hmem) | hmem
    · exact absurd hmem (by decide)
    · have := repr_chars_digits (jsOrNat r.currentRound 1) 'p' hmem
      exact absurd this (by decide)
    · exact absurd hmem (by decide)
    · exact absurd hmem (by decide)
    · exact absurd hmem (by decide)
    · exact absurd hmem (by decide)
    · exact absurd hmem (by decide)
    · exact absurd hmem (by decide)

/-- Witness for C9: the plain round request with no caller-supplied text. -/
theorem c9_narrative_prompt_purity_witness :
    strIncludes (buildNarrativeUserPrompt plainRoundReq) PARSER_PROMPT = false :=
  (c9_narrative_prompt_purity plainRoundReq rfl rfl rfl).2.2.2

/-- Helper: the pattern loop of `extractJsonFromResponse` succeeds exactly
when some candidate qualifies. -/
theorem firstPanelData_isSome_any :
    ∀ cands : List (Option String),
      (firstPanelData cands).isSome = cands.any panelCandidateOk := by
  intro cands
  induction cands with
  | nil => rfl
  | cons c rest ih =>
    cases c with
    | none => simp [firstPanelData, panelCandidateOk, ih]
    | some s =>
      by_cases hs : s = ""
      · simp [firstPanelData, panelCandidateOk, hs, ih]
      · cases hp : jsonParse (strTrim s) with
        | none => simp [firstPanelData, panelCandidateOk, hs, hp, ih]
        | some v =>
          by_cases hq : (jsObjectLike v && optTruthy (jget v "perEntityPanel")) = true
          · simp [firstPanelData, panelCandidateOk, hs, hp, hq]
          · simp [firstPanelData, panelCandidateOk, hs, hp, hq, ih]

/-- C10 (amended): a parser call whose response carries a non-empty
content string `s` always succeeds, returns `s` as the raw text, and
reports `parseSuccess = true` exactly when some extracted block is a
non-empty match whose trimmed text parses to a JSON object with a
*truthy* `perEntityPanel` field — an object that merely contains the
field with a falsy value (such as `null`) still counts as a parse
failure, with the raw text preserved and no panel data. -/
theorem c10_parse_success_characterization (data : Json) (s : String)
    (hc : extractChoicesContent data = some (.str s)) (hs : s ≠ "") :
    (parseNarrativeCall (.ok data)).success = true ∧
    (parseNarrativeCall (.ok data)).rawText = some s ∧
    (parseNarrativeCall (.ok data)).panelData = extractJsonFromResponse s ∧
    (parseNarrativeCall (.ok data)).parseSuccess =
      some ((patternCandidates s).any panelCandidateOk) ∧
    ((parseNarrativeCall (.ok data)).parseSuccess = some true ↔
      ∃ t, some t ∈ patternCandidates s ∧ panelCandidateOk (some t) = true) := by
  have hcall : parseNarrativeCall (.ok data) =
      { success := true, rawText := some s, panelData := extractJsonFromResponse s,
        parseSuccess := some (extractJsonFromResponse s).isSome, error := none } := by
    rw [show parseNarrativeCall (.ok data) =
      parseNarrativeContentResult (extractChoicesContent data) from rfl, hc]
    simp [parseNarrativeContentResult, hs]
  have hany : (extractJsonFromResponse s).isSome = (patternCandidates s).any panelCandidateOk :=
    firstPanelData_isSome_any (patternCandidates s)
  refine ⟨by simp [hcall], by simp [hcall], by simp [hcall], by simp [hcall, hany], ?_⟩
  rw [hcall]
  simp only [hany]
  constructor
  · intro h
    have h2 : (patternCandidates s).any panelCandidateOk = true := by simpa using h
    obtain ⟨x, hx, hxq⟩ := List.any_eq_true.mp h2
    cases x with
    | none => simp [panelCandidateOk] at hxq
    | some t => exact ⟨t, hx, hxq⟩
  · rintro ⟨t, ht, htq⟩
    have : (patternCandidates s).any panelCandidateOk = true :=
      List.any_eq_true.mpr ⟨some t, ht, htq⟩
    simp [this]

/-- Witness for C10: a parser response of plain prose. -/
theorem c10_parse_success_characterization_witness :
    (parseNarrativeCall (.ok (okPayload "纯文本"))).success = true ∧
    (parseNarrativeCall (.ok (okPayload "纯文本"))).parseSuccess =
      some ((patternCandidates "纯文本").any panelCandidateOk) := by
  have h := c10_parse_success_characterization (okPayload "纯文本") "纯文本" rfl (by decide)
  exact ⟨h.1, h.2.2.2.1⟩

/-- C10 counterexample: the first extracted block of `cEx10` parses to a
JSON object that *contains* a `perEntityPanel` field (with value `null`),
yet the parser call reports `parseSuccess = some false`. -/
theorem c10_parse_success_counterexample :
    (parseNarrativeCall (okNarrativeOutcome cEx10)).parseSuccess = some false ∧
    matchJsonFence cEx10 = some "\x7b\"perEntityPanel\": null\x7d\n" ∧
    jsonParse (strTrim "\x7b\"perEntityPanel\": null\x7d\n") =
      some (Json.obj [("perEntityPanel", Json.null)]) :=
  ⟨rfl, rfl, rfl⟩

/-- Witness for C6: a two-message history of 2 estimated tokens is under
the keep-threshold at `maxTokens = 10` and survives compression intact. -/
theorem c6_recompress_identity_witness :
    10 * listTokens [⟨.user, "a"⟩, ⟨.assistant, "b"⟩] ≤ 7 * 10 ∧
    compressHistory [⟨.user, "a"⟩, ⟨.assistant, "b"⟩] 10 =
      [⟨.user, "a"⟩, ⟨.assistant, "b"⟩] :=
  ⟨by decide, c6_recompress_identity [⟨.user, "a"⟩, ⟨.assistant, "b"⟩] 10 (by decide)⟩
